import Mathlib

/-!
Verification development for the onchainfi/connect payment SDK.

The TypeScript sources are shallowly embedded as pure Lean functions.
JavaScript strings are modelled as `List Char` where character-level
manipulation matters (amount parsing/formatting) and as `String`
elsewhere; JS `BigInt` is modelled as `Nat` (all amounts handled by the
SDK are non-negative); JS numbers used in fee arithmetic are modelled as
`ℚ` (IEEE-754 rounding is abstracted away); network and wallet
interactions are modelled by environment records carrying the responses,
and each operation returns, besides its result, the state of the hook
and the list of observable events (HTTP requests, wallet signature
prompts, lifecycle-callback invocation points) it emits, in order.
-/

namespace OnchainConnect

/-! ## Amount utilities — `src/config/tokens.ts`

`parseTokenAmount` and `formatTokenAmount` act on JS strings, modelled
here as `List Char`.  `BigInt(s)` on an all-digit string is
`digitsToNat`; `BigInt.prototype.toString` is `natToDigits`.
-/

/-- Numeric value of a digit character, as in JS string-to-BigInt parsing. -/
def digitVal (c : Char) : ℕ := c.toNat - 48

/-- `BigInt(s)` for an all-digit (possibly empty) string: JS yields `0n` on `""`. -/
def digitsToNat (s : List Char) : ℕ := s.foldl (fun acc c => 10 * acc + digitVal c) 0

/-- Digit character for `n < 10`, as produced by JS `toString`. -/
def natDigitChar (n : ℕ) : Char := Char.ofNat (48 + n)

/-- `BigInt.prototype.toString()` (base 10) for a natural number. -/
def natToDigits (n : ℕ) : List Char :=
  if _h : n < 10 then [natDigitChar n]
  else natToDigits (n / 10) ++ [natDigitChar (n % 10)]
  termination_by n
  decreasing_by exact Nat.div_lt_self (by omega) (by omega)

/-- JS `String.prototype.padEnd(len, c)`. -/
def padEnd (s : List Char) (len : ℕ) (c : Char) : List Char :=
  s ++ List.replicate (len - s.length) c

/-- JS `String.prototype.padStart(len, c)`. -/
def padStart (s : List Char) (len : ℕ) (c : Char) : List Char :=
  List.replicate (len - s.length) c ++ s

/-- JS `s.replace(/0+$/, '')`: drop the trailing run of `'0'` characters. -/
def dropTrailingZeros (s : List Char) : List Char :=
  (s.reverse.dropWhile (· = '0')).reverse

/-- First segment of `s.split('.')`. -/
def wholePart (s : List Char) : List Char := s.takeWhile (· ≠ '.')

/-- Second segment of `s.split('.')`, or `''` when there is none
(the destructuring `const [whole, fraction = ''] = amount.split('.')`). -/
def fractionPart (s : List Char) : List Char :=
  ((s.dropWhile (· ≠ '.')).drop 1).takeWhile (· ≠ '.')

/-- `parseTokenAmount` from `src/config/tokens.ts`:
split on the decimal point, right-pad the fraction with zeros to
`decimals` digits, truncate it to `decimals` digits, concatenate and
parse as an integer. -/
def parseTokenAmount (amount : List Char) (decimals : ℕ) : ℕ :=
  let whole := wholePart amount
  let fraction := fractionPart amount
  let paddedFraction := (padEnd fraction decimals '0').take decimals
  digitsToNat (whole ++ paddedFraction)

/-- `formatTokenAmount` from `src/config/tokens.ts`:
divide by `10 ^ decimals`; when the remainder is zero print the whole
part alone, otherwise print `whole.fraction` with the fraction
zero-padded to `decimals` digits and trailing zeros stripped. -/
def formatTokenAmount (amount : ℕ) (decimals : ℕ) : List Char :=
  let divisor := 10 ^ decimals
  let whole := amount / divisor
  let remainder := amount % divisor
  if remainder = 0 then natToDigits whole
  else
    let remainderStr := padStart (natToDigits remainder) decimals '0'
    let trimmed := dropTrailingZeros remainderStr
    natToDigits whole ++ '.' :: trimmed

/-- A decimal-digit character. -/
def isDecDigit (c : Char) : Bool := decide ('0' ≤ c) && decide (c ≤ '9')

/-- Well-formed decimal amount string: at most one decimal point and
every other character a digit. -/
def wellFormedAmount (s : List Char) : Bool :=
  (s.filter (· = '.')).length ≤ 1 && s.all (fun c => isDecDigit c || c = '.')

/-- Rational value represented by a decimal amount string. -/
def decimalVal (s : List Char) : ℚ :=
  (digitsToNat (wholePart s) : ℚ)
    + (digitsToNat (fractionPart s) : ℚ) / 10 ^ (fractionPart s).length

/-- The string `s` truncated to at most `d` fractional digits. -/
def truncAmount (s : List Char) (d : ℕ) : List Char :=
  let f := (fractionPart s).take d
  wholePart s ++ (if f.length = 0 then [] else '.' :: f)

/-! ## Fee configuration — `src/hooks/shared/feeConfig.ts`

Fee percentages and minimums are JS numbers; they are modelled as `ℚ`.
-/

structure SamechainFees where
  standard : ℚ
  reduced : ℚ
  complimentary : ℚ
  merchantTier : String
  currentFee : ℚ
deriving DecidableEq

structure CrosschainFees where
  feePercent : ℚ
  minimumFeeBase : ℚ
  minimumFeeSolana : ℚ
deriving DecidableEq

structure AtaFees where
  creationFee : ℚ
  description : Option String
deriving DecidableEq

structure FeeConfig where
  samechain : SamechainFees
  crosschain : CrosschainFees
  ata : AtaFees
deriving DecidableEq

/-- `DEFAULT_FEE_CONFIG` from `src/hooks/shared/feeConfig.ts`. -/
def DEFAULT_FEE_CONFIG : FeeConfig where
  samechain :=
    { standard := 1/10, reduced := 1/20, complimentary := 0
      merchantTier := "STANDARD", currentFee := 1/10 }
  crosschain := { feePercent := 1, minimumFeeBase := 1/100, minimumFeeSolana := 1/100 }
  ata :=
    { creationFee := 2/5
      description := some "One-time Solana rent-exempt fee for creating ATA account" }

/-! ## Shared API layer — `src/hooks/shared/api.ts`

A backend JSON response is modelled by the fields the SDK reads.
`Option` plays the role of a missing (`undefined`) field; JS `||`
treats the empty string as falsy, captured by `jsTruthy`.
-/

/-- Decidable equality for `Except`, used to evaluate the embedded
operations on concrete inputs. -/
instance exceptDecEq {e a : Type} [DecidableEq e] [DecidableEq a] :
    DecidableEq (Except e a)
  | .error x, .error y =>
    if h : x = y then .isTrue (by rw [h]) else .isFalse (by simp [h])
  | .error _, .ok _ => .isFalse (by simp)
  | .ok _, .error _ => .isFalse (by simp)
  | .ok x, .ok y =>
    if h : x = y then .isTrue (by rw [h]) else .isFalse (by simp [h])

/-- JS truthiness for an optional string: `undefined` and `''` are falsy. -/
def jsTruthy : Option String → Option String
  | some s => if s = "" then none else some s
  | none => none

/-- JS `a || b` for an optional string against a string default. -/
def jsOrStr (a : Option String) (b : String) : String := (jsTruthy a).getD b

/-- JS `a || b` for an optional number against a number default
(`0` is falsy). -/
def jsOrNat (a : Option ℕ) (b : ℕ) : ℕ :=
  match a with
  | some n => if n = 0 then b else n
  | none => b

/-- The fields of a backend JSON response that the SDK inspects:
`ok` is `response.ok`, the rest are `data.status`, `data.error?.message`,
`data.error?.hint`, `data.message`, `data.data?.reason`, `data.data?.valid`,
`data.data?.settled`, `data.data?.paymentId`, `data.data?.txHash`,
`data.data?.depositAddress`, `data.data?.orderId`. -/
structure ApiResp where
  ok : Bool
  status : Option String
  errorMessage : Option String
  errorHint : Option String
  message : Option String
  dataReason : Option String
  dataValid : Option Bool
  dataSettled : Option Bool
  dataPaymentId : Option String
  dataTxHash : Option String
  dataDepositAddress : Option String
  dataOrderId : Option String
deriving DecidableEq

/-- The error-message construction shared by `verifyPayment` and
`settlePayment` in `api.ts`: `data.error?.message || data.message ||
data.data?.reason || default`, then append `data.error?.hint` when
truthy. -/
def apiErrorMessage (r : ApiResp) (defaultMsg : String) : String :=
  let errorMessage :=
    jsOrStr r.errorMessage (jsOrStr r.message (jsOrStr r.dataReason defaultMsg))
  match jsTruthy r.errorHint with
  | some hint => errorMessage ++ " " ++ hint
  | none => errorMessage

/-- Response handling of `verifyPayment` (`api.ts`): throw unless
`response.ok`, `data.status === 'success'` and `data.data?.valid` is
truthy; otherwise return the parsed response. -/
def verifyPaymentResp (r : ApiResp) : Except String ApiResp :=
  if ¬ r.ok ∨ r.status ≠ some "success" ∨ r.dataValid ≠ some true then
    .error (apiErrorMessage r "Payment verification failed")
  else .ok r

/-- Response handling of `settlePayment` (`api.ts`): throw unless
`response.ok`, `data.status === 'success'` and `data.data?.settled` is
truthy. -/
def settlePaymentResp (r : ApiResp) : Except String ApiResp :=
  if ¬ r.ok ∨ r.status ≠ some "success" ∨ r.dataSettled ≠ some true then
    .error (apiErrorMessage r "Payment settlement failed")
  else .ok r

/-- Result of `prepareBridge` (`api.ts`). -/
structure BridgeData where
  depositAddress : String
  orderId : String
deriving DecidableEq

/-- Response handling of `prepareBridge` (`api.ts`): throw unless
`response.ok` and `data.status === 'success'`; its error chain is
`data.error?.message || data.message || default` (no `data.data?.reason`),
then append the hint when truthy.  A success response missing
`depositAddress`/`orderId` would flow as JS `undefined`; that degenerate
shape is modelled as `""`. -/
def prepareBridgeResp (r : ApiResp) : Except String BridgeData :=
  if ¬ r.ok ∨ r.status ≠ some "success" then
    let errorMessage :=
      jsOrStr r.errorMessage (jsOrStr r.message "Crosschain bridge preparation failed")
    .error (match jsTruthy r.errorHint with
      | some hint => errorMessage ++ " " ++ hint
      | none => errorMessage)
  else .ok { depositAddress := r.dataDepositAddress.getD ""
             orderId := r.dataOrderId.getD "" }

/-- Response of the facilitator ranking endpoint:
`ok`/HTTP status plus `data.data?.facilitators` projected to the
`facilitatorName` of each entry. -/
structure FacilResp where
  ok : Bool
  httpStatus : ℕ
  facilitators : List String
deriving DecidableEq

/-- `getRankedFacilitators` (`api.ts`): fail on a non-ok response, then
take `data.data?.facilitators?.[0]?.facilitatorName`, failing when it is
missing or empty. -/
def getRankedFacilitators (r : FacilResp) : Except String String :=
  if ¬ r.ok then
    .error ("Failed to get facilitator rankings: " ++ toString r.httpStatus)
  else
    match jsTruthy r.facilitators.head? with
    | some name => .ok name
    | none => .error "No facilitators available"

/-! ## Facilitator fee payers — `src/config/solana.ts` -/

/-- `SOLANA_FEE_PAYERS` from `src/config/solana.ts`. -/
def SOLANA_FEE_PAYERS : List (String × String) :=
  [("PayAI", "2wKupLR9q6wXYppw8Gr2NvWxKBUqm4PPJKkQfoxHDBg4"),
   ("Anyspend", "34DmdeSbEnng2bmbSj9ActckY49km2HdhiyAwyXZucqP"),
   ("OctonetAI", "39uhTfNLqBiPvNQXeK1baNcScaVTCEj4iTxQwbEJukU1"),
   ("Aurracloud", "8x8CzkTHTYkW18frrTR7HdCV6fsjenvcykJAXWvoPQW")]

/-- `getSolanaFeePayer` from `src/config/solana.ts`: look the facilitator
name up in `SOLANA_FEE_PAYERS` and throw when absent (or falsy). -/
def getSolanaFeePayer (facilitatorName : String) : Except String String :=
  match jsTruthy (SOLANA_FEE_PAYERS.lookup facilitatorName) with
  | some feePayer => .ok feePayer
  | none => .error ("Solana fee payer not configured for facilitator: " ++ facilitatorName)

/-! ## Shared payment types — `src/hooks/useOnchainPay.ts`, `src/types/config.ts` -/

structure TokenConfig where
  address : String
  symbol : String
  decimals : ℕ
  name : Option String
deriving DecidableEq

structure PaymentParams where
  toAddr : String
  amount : String
  sourceNetwork : Option String
  destinationNetwork : Option String
  network : Option String
  chainId : Option ℕ
  token : Option TokenConfig
  priority : Option String
deriving DecidableEq

/-- The uniform result object of `pay`/`verify`/`settle`
(`PaymentResult` in `useOnchainPay.ts`). -/
structure PaymentResultR where
  success : Bool
  txHash : Option String
  error : Option String
  verified : Option Bool
  settled : Option Bool
deriving DecidableEq

/-- The object returned by `verify` — `PaymentResult` extended with the
header and resolved routing fields. -/
structure VerifyResult (H : Type) where
  success : Bool
  error : Option String
  verified : Option Bool
  x402Header : Option H
  sourceNetwork : Option String
  destinationNetwork : Option String
  priority : Option String
deriving DecidableEq

/-- `validateAmount` from `src/hooks/shared/validation.ts` (the segment
appended at the end of `src/src/hooks/useChainAlignment.ts`): it simply
delegates to `parseTokenAmount` to convert the decimal amount string to
atomic units at the token's precision. -/
def validateAmount (amount : String) (decimals : ℕ) : ℕ :=
  parseTokenAmount amount.data decimals

/-- `getValidityTimestamps` from `src/hooks/shared/validation.ts` (the
segment appended at the end of `src/src/hooks/useChainAlignment.ts`):
`validAfter = 0` and `validBefore = Math.floor(Date.now() / 1000) +
3600`, with the wall-clock reading `Math.floor(Date.now() / 1000)`
passed in as `now`. -/
def getValidityTimestamps (now : ℕ) : ℕ × ℕ := (0, now + 3600)

/-- JS `String.prototype.includes`: `pat` occurs as a contiguous
subsequence. -/
def containsSeq (pat : List Char) : List Char → Bool
  | [] => pat.isPrefixOf []
  | c :: rest => pat.isPrefixOf (c :: rest) || containsSeq pat rest

/-- `destinationNetwork.toLowerCase().includes('solana')` from
`useEvmPay.verify`. -/
def destIsSolana (s : String) : Bool :=
  containsSeq "solana".data (s.data.map Char.toLower)

/-- The fee computation of `useEvmPay.verify`: pick the cross-chain or
same-chain (merchant-tier) percentage, take that percentage of the
amount, and for cross-chain payments floor the result at the
destination family's configured minimum. -/
def calcProcessingFee (feeConfig : FeeConfig) (isCrossChain : Bool)
    (destinationNetwork : String) (amountValue : ℚ) : ℚ :=
  let feePercent :=
    if isCrossChain then feeConfig.crosschain.feePercent
    else feeConfig.samechain.currentFee
  let processingFee := amountValue * feePercent / 100
  if isCrossChain then
    let minFee :=
      if destIsSolana destinationNetwork then feeConfig.crosschain.minimumFeeSolana
      else feeConfig.crosschain.minimumFeeBase
    max processingFee minFee
  else processingFee

/-- The `expectedFees` object sent with verify.  The `.toFixed(6)`
decimal rendering of the two numbers is presentational and not
modelled; the rational values are carried. -/
structure ExpectedFees where
  processingFee : ℚ
  totalFees : ℚ
deriving DecidableEq

/-- The JSON body `verifyPayment` (`api.ts`) posts to `/v1/verify`,
generic in the payment-header type.  `Option` fields are the
conditionally-spread properties: `...(params.finalRecipient && {...})`
and `...(params.bridgeOrderId && {...})` drop falsy values, and
`needsATACreation` is included only when not `undefined`. -/
structure VerifyBody (H : Type) where
  paymentHeader : H
  sourceNetwork : String
  destinationNetwork : String
  expectedAmount : String
  expectedToken : String
  recipientAddress : String
  finalRecipient : Option String
  priority : String
  bridgeOrderId : Option String
  expectedFees : Option ExpectedFees
  needsATACreation : Option Bool
deriving DecidableEq

/-- The JSON body `settlePayment` (`api.ts`) posts to `/v1/settle`.
`paymentId` is `Option` because `JSON.stringify` drops the property when
the caller leaves it `undefined`. -/
structure SettleBody (H : Type) where
  paymentId : Option String
  paymentHeader : H
  sourceNetwork : String
  destinationNetwork : String
  priority : String
deriving DecidableEq

/-! ## EVM payment hook — `src/hooks/useEvmPay.ts` -/

/-- EIP-712 `TransferWithAuthorization` message built by
`useEvmPay.signPayment`. -/
structure EvmAuthorization where
  fromAddr : String
  toAddr : String
  value : ℕ
  validAfter : ℕ
  validBefore : ℕ
  nonce : String
deriving DecidableEq

structure EvmPayload where
  signature : String
  authorization : EvmAuthorization
deriving DecidableEq

/-- The x402 payment header built by `useEvmPay.signPayment`.  The JSON
envelope is modelled structurally; the `btoa(JSON.stringify(...))`
base64 encoding is a bijective serialization and is not modelled. -/
structure X402HeaderEvm where
  x402Version : ℕ
  scheme : String
  network : String
  payload : EvmPayload
deriving DecidableEq

/-- Observable events of the EVM hook, in emission order: outbound HTTP
requests, the wallet typed-data signature prompt, and the invocation
points of the optional lifecycle callbacks (`callbacks.onX?.()` /
`params.onSuccess?.()` / `params.onError?.()`). -/
inductive EvmEvent
  | bridgeReq (sourceNetwork destinationNetwork amount recipientAddress : String)
  | signReq (chainId : ℕ) (verifyingContract : String) (message : EvmAuthorization)
  | verifyReq (body : VerifyBody X402HeaderEvm)
  | settleReq (body : SettleBody X402HeaderEvm)
  | cbSigningStart
  | cbSigningComplete
  | cbVerificationStart
  | cbVerificationComplete
  | cbSettlementStart
  | cbSettlementComplete
  | cbSuccess (txHash : String)
  | cbError (msg : String)
deriving DecidableEq

/-- `PaymentState` of `useEvmPay`. -/
structure EvmPaymentState where
  signature : Option String
  x402Header : Option X402HeaderEvm
  sourceNetwork : Option String
  destinationNetwork : Option String
  priority : Option String
deriving DecidableEq

def EvmPaymentState.empty : EvmPaymentState :=
  { signature := none, x402Header := none, sourceNetwork := none
    destinationNetwork := none, priority := none }

/-- Persistent hook state of `useEvmPay` (the transient
`isPaying`/`isVerifying`/`isSettling` flags are set and then restored in
`finally` and are omitted). -/
structure EvmHookState where
  paymentState : EvmPaymentState
  lastTxHash : Option String
  errorMsg : Option String
deriving DecidableEq

/-- The state of a freshly constructed hook, which is also what
`reset()` restores. -/
def EvmHookState.initial : EvmHookState :=
  { paymentState := .empty, lastTxHash := none, errorMsg := none }

/-- `useEvmPay.reset`. -/
def resetEvm (_st : EvmHookState) : EvmHookState := EvmHookState.initial

/-- Environment of one `useEvmPay` operation: the merged `finalConfig`,
the ambient wallet/chain readings, the fetched fee configuration, and
the responses the outside world would give to each outbound
interaction.  `parsedAmount` stands for `parseFloat(params.amount)`
(IEEE doubles abstracted as `ℚ`); `nonce` for `generateNonce()`; `now`
for the wall clock; `intermediateWallet` for
`SUPPORTED_CHAINS.base.samechainIntermediateWallet` (an env-var with a
hardcoded fallback, hence a plain string whose truthiness the code
checks). -/
structure EvmCtx where
  apiKey : Option String
  apiUrl : String
  network : Option String
  chainId : ℕ
  token : TokenConfig
  autoSettle : Bool
  isConnected : Bool
  address : Option String
  currentChainId : ℕ
  intermediateWallet : String
  feeConfig : FeeConfig
  parsedAmount : ℚ
  nonce : String
  now : ℕ
  signResp : Except String String
  bridgeResp : ApiResp
  verifyResp : ApiResp
  settleResp : ApiResp

/-- The chain-mismatch error message of `useEvmPay.signPayment`. -/
def chainMismatchMsg (currentChainId expectedChainId : ℕ) (sourceNetwork : String) : String :=
  "Chain mismatch: Wallet is on chain " ++ toString currentChainId ++
  ", but payment requires chain " ++ toString expectedChainId ++
  " (" ++ sourceNetwork ++ "). Please switch networks in your wallet."

/-- The pre-flight chain validation at the top of
`useEvmPay.signPayment`: `sourceNetwork === 'base' ? 8453 : undefined`,
and an error when an expected chain id exists and the wallet's active
chain differs from it. -/
def preflightMismatch (ctx : EvmCtx) (params : PaymentParams) : Option String :=
  match jsTruthy params.sourceNetwork with
  | some s =>
    if s = "base" ∧ ctx.currentChainId ≠ 8453 then
      some (chainMismatchMsg ctx.currentChainId 8453 s)
    else none
  | none => none

/-- `useEvmPay.signPayment`: wallet-connected check, the pre-flight
chain validation, then the EIP-712 signature request and the x402
header.  The Privy/wagmi signer branches produce the same typed data
and are folded into `ctx.signResp`. -/
def signPaymentEvm (ctx : EvmCtx) (params : PaymentParams) :
    Except String (String × X402HeaderEvm) × List EvmEvent :=
  if ¬ (ctx.isConnected ∧ ctx.address ≠ none) then (.error "Wallet not connected", [])
  else
    let address := ctx.address.getD ""
    let useChainId := jsOrNat params.chainId ctx.chainId
    let useToken := params.token.getD ctx.token
    match preflightMismatch ctx params with
    | some msg => (.error msg, [])
    | none =>
      let amountBigInt := validateAmount params.amount useToken.decimals
      let vtimes := getValidityTimestamps ctx.now
      let authorization : EvmAuthorization :=
        { fromAddr := address, toAddr := params.toAddr, value := amountBigInt
          validAfter := vtimes.1, validBefore := vtimes.2, nonce := ctx.nonce }
      let events := [EvmEvent.cbSigningStart,
                     EvmEvent.signReq useChainId useToken.address authorization]
      match ctx.signResp with
      | .error e => (.error e, events)
      | .ok signature =>
        let header : X402HeaderEvm :=
          { x402Version := 1, scheme := "exact"
            network := jsOrStr params.sourceNetwork
              (jsOrStr params.network (jsOrStr ctx.network "base"))
            payload := { signature := signature, authorization := authorization } }
        (.ok (signature, header), events ++ [EvmEvent.cbSigningComplete])

/-- Failure return shared by the `catch` paths of `useEvmPay.verify`:
`params.onError?.(err); setError(err); return {success:false, error}`. -/
def verifyFailEvm (stNow : EvmHookState) (events : List EvmEvent) (e : String) :
    VerifyResult X402HeaderEvm × EvmHookState × List EvmEvent :=
  ({ success := false, error := some e, verified := none, x402Header := none
     sourceNetwork := none, destinationNetwork := none, priority := none },
   { stNow with errorMsg := some e }, events ++ [.cbError e])

/-- `useEvmPay.verify`: credential check, network/priority resolution,
fee computation, bridge preparation for cross-chain intents, same-chain
two-hop re-routing through the intermediate wallet, EVM signing,
persisting the pending payment state, and the `/v1/verify` call. -/
def verifyEvm (ctx : EvmCtx) (st : EvmHookState) (params : PaymentParams) :
    VerifyResult X402HeaderEvm × EvmHookState × List EvmEvent :=
  match jsTruthy ctx.apiKey with
  | none =>
    let msg := "Onchain API key not provided"
    ({ success := false, error := some msg, verified := none, x402Header := none
       sourceNetwork := none, destinationNetwork := none, priority := none },
     { st with errorMsg := some msg }, [.cbError msg])
  | some _ =>
    let st := { st with errorMsg := none }
    let sourceNetwork :=
      jsOrStr params.sourceNetwork (jsOrStr params.network (jsOrStr ctx.network "base"))
    let destinationNetwork :=
      jsOrStr params.destinationNetwork (jsOrStr params.network (jsOrStr ctx.network "base"))
    let priority := jsOrStr params.priority "balanced"
    let isCrossChain := sourceNetwork ≠ destinationNetwork
    let processingFee :=
      calcProcessingFee ctx.feeConfig isCrossChain destinationNetwork ctx.parsedAmount
    let expectedFees : ExpectedFees :=
      { processingFee := processingFee, totalFees := processingFee }
    let events0 := [EvmEvent.cbVerificationStart]
    let bridgeEvents :=
      if isCrossChain then
        [EvmEvent.bridgeReq sourceNetwork destinationNetwork params.amount params.toAddr]
      else []
    let bridgeStep : Except String (String × Option String) :=
      if isCrossChain then
        match prepareBridgeResp ctx.bridgeResp with
        | .error e => .error e
        | .ok bd => .ok (bd.depositAddress, some bd.orderId)
      else .ok (params.toAddr, none)
    match bridgeStep with
    | .error e => verifyFailEvm st (events0 ++ bridgeEvents) e
    | .ok (recipient0, bridgeOrderId) =>
      let rerouted :=
        if ¬ isCrossChain ∧ ctx.intermediateWallet ≠ "" then
          (ctx.intermediateWallet, some recipient0)
        else (recipient0, (none : Option String))
      let recipientAddress := rerouted.1
      let originalRecipient := rerouted.2
      let signStep := signPaymentEvm ctx { params with toAddr := recipientAddress }
      match signStep.1 with
      | .error e => verifyFailEvm st (events0 ++ bridgeEvents ++ signStep.2) e
      | .ok sigHeader =>
        let st1 := { st with paymentState :=
          { signature := some sigHeader.1, x402Header := some sigHeader.2
            sourceNetwork := some sourceNetwork
            destinationNetwork := some destinationNetwork
            priority := some priority } }
        let body : VerifyBody X402HeaderEvm :=
          { paymentHeader := sigHeader.2
            sourceNetwork := sourceNetwork, destinationNetwork := destinationNetwork
            expectedAmount := params.amount
            expectedToken := jsOrStr (params.token.map (·.symbol)) ctx.token.symbol
            recipientAddress := recipientAddress
            finalRecipient := jsTruthy originalRecipient
            priority := priority
            bridgeOrderId := jsTruthy bridgeOrderId
            expectedFees := some expectedFees
            needsATACreation := some false }
        let events1 := events0 ++ bridgeEvents ++ signStep.2 ++ [.verifyReq body]
        match verifyPaymentResp ctx.verifyResp with
        | .error e => verifyFailEvm st1 events1 e
        | .ok _ =>
          ({ success := true, error := none, verified := some true
             x402Header := some sigHeader.2, sourceNetwork := some sourceNetwork
             destinationNetwork := some destinationNetwork, priority := some priority },
           st1, events1 ++ [.cbVerificationComplete])

/-- `useEvmPay.settleInternal`: credential check, then POST to
`/v1/settle`.  The call site passes no `paymentId`, so the request body
carries none. -/
def settleInternalEvm (ctx : EvmCtx) (st : EvmHookState) (x402Header : X402HeaderEvm)
    (sourceNetwork destinationNetwork priority : String) :
    PaymentResultR × EvmHookState × List EvmEvent :=
  match jsTruthy ctx.apiKey with
  | none =>
    let msg := "Onchain API key not provided"
    ({ success := false, txHash := none, error := some msg, verified := none, settled := none },
     { st with errorMsg := some msg }, [])
  | some _ =>
    let st := { st with errorMsg := none }
    let body : SettleBody X402HeaderEvm :=
      { paymentId := none, paymentHeader := x402Header
        sourceNetwork := sourceNetwork, destinationNetwork := destinationNetwork
        priority := priority }
    let events := [EvmEvent.cbSettlementStart, .settleReq body]
    match settlePaymentResp ctx.settleResp with
    | .error e =>
      ({ success := false, txHash := none, error := some e, verified := none, settled := none },
       { st with errorMsg := some e }, events ++ [.cbError e])
    | .ok r =>
      let txHash := jsOrStr r.dataTxHash ""
      ({ success := true, txHash := some txHash, error := none, verified := none
         settled := some true },
       { st with lastTxHash := some txHash }, events ++ [.cbSettlementComplete, .cbSuccess txHash])

/-- `useEvmPay.settle`: credential check, held-payment check (`"No
payment to settle. Call verify() first."`), then `settleInternal` with
the held fields (the TS non-null assertions `!` are `getD ""`). -/
def settleEvm (ctx : EvmCtx) (st : EvmHookState) :
    PaymentResultR × EvmHookState × List EvmEvent :=
  match jsTruthy ctx.apiKey with
  | none =>
    let msg := "Onchain API key not provided"
    ({ success := false, txHash := none, error := some msg, verified := none, settled := none },
     { st with errorMsg := some msg }, [])
  | some _ =>
    match st.paymentState.x402Header with
    | none =>
      let msg := "No payment to settle. Call verify() first."
      ({ success := false, txHash := none, error := some msg, verified := none, settled := none },
       { st with errorMsg := some msg }, [])
    | some h =>
      settleInternalEvm ctx st h (st.paymentState.sourceNetwork.getD "")
        (st.paymentState.destinationNetwork.getD "") (st.paymentState.priority.getD "")

/-- `useEvmPay.pay`: verify, then — only when `autoSettle` — settle with
the fields returned by verify; a verify failure is returned as is. -/
def payEvm (ctx : EvmCtx) (st : EvmHookState) (params : PaymentParams) :
    PaymentResultR × EvmHookState × List EvmEvent :=
  let vstep := verifyEvm ctx st params
  let vr := vstep.1
  if ¬ vr.success then
    ({ success := vr.success, txHash := none, error := vr.error, verified := vr.verified
       settled := none }, vstep.2.1, vstep.2.2)
  else if ctx.autoSettle then
    match vr.x402Header with
    | some h =>
      let sstep := settleInternalEvm ctx vstep.2.1 h
        (vr.sourceNetwork.getD "") (vr.destinationNetwork.getD "") (vr.priority.getD "")
      (sstep.1, sstep.2.1, vstep.2.2 ++ sstep.2.2)
    | none =>
      ({ success := vr.success, txHash := none, error := vr.error, verified := vr.verified
         settled := none }, vstep.2.1, vstep.2.2)
  else
    ({ success := vr.success, txHash := none, error := vr.error, verified := vr.verified
       settled := none }, vstep.2.1, vstep.2.2)

/-! ## Solana payment hook — `src/hooks/useSolanaPay.ts` -/

/-- `TOKEN_PROGRAM_ID` from `@solana/spl-token`. -/
def TOKEN_PROGRAM_ID : String := "TokenkegQfeZyiNwAJbNbGKPFXCWuBvf9Ss623VQ5DA"

/-- `TOKEN_2022_PROGRAM_ID` from `@solana/spl-token`. -/
def TOKEN_2022_PROGRAM_ID : String := "TokenzQdBNbLqP5VEhdkAS6EPFLC1PHnBqCXEpPxuEb"

/-- The instructions `signSolanaPayment` can place in the transaction.
Addresses are base58 strings; key metadata not read downstream is
elided. -/
inductive SolInstr
  | computeUnitLimit (units : ℕ)
  | computeUnitPrice (microLamports : ℕ)
  | createAta (payer ata owner mint : String)
  | transferChecked (sourceAta mint destAta owner : String) (amount : ℕ) (decimals : ℕ)
deriving DecidableEq

/-- The compiled v0 transaction message: fee payer, recent blockhash and
ordered instruction list. -/
structure SolTx where
  feePayer : String
  recentBlockhash : String
  instructions : List SolInstr
deriving DecidableEq

/-- The x402 payload for Solana: the (partially signed, base64-encoded)
transaction — modelled structurally, serialization abstracted — plus the
cross-chain destination metadata added when this leg bridges. -/
structure SolPayload where
  transaction : SolTx
  destinationNetwork : Option String
  destinationAddress : Option String
deriving DecidableEq

structure SolHeader where
  x402Version : ℕ
  scheme : String
  network : String
  payload : SolPayload
deriving DecidableEq

/-- Observable events of the Solana hook, in emission order. -/
inductive SolEvent
  | bridgeReq (sourceNetwork destinationNetwork amount recipientAddress : String)
  | facilReq (network priority : String)
  | signReq (transaction : SolTx)
  | verifyReq (body : VerifyBody SolHeader)
  | settleReq (body : SettleBody SolHeader)
  | cbSigningStart
  | cbSigningComplete
  | cbVerificationStart
  | cbVerificationComplete
  | cbSettlementStart
  | cbSettlementComplete
  | cbSuccess (txHash : String)
  | cbError (msg : String)
deriving DecidableEq

/-- `PaymentState` of `useSolanaPay` (no `signature` field). -/
structure SolPaymentState where
  x402Header : Option SolHeader
  sourceNetwork : Option String
  destinationNetwork : Option String
  priority : Option String
deriving DecidableEq

def SolPaymentState.empty : SolPaymentState :=
  { x402Header := none, sourceNetwork := none, destinationNetwork := none, priority := none }

structure SolHookState where
  paymentState : SolPaymentState
  lastTxHash : Option String
  errorMsg : Option String
deriving DecidableEq

def SolHookState.initial : SolHookState :=
  { paymentState := .empty, lastTxHash := none, errorMsg := none }

/-- `useSolanaPay.reset`. -/
def resetSol (_st : SolHookState) : SolHookState := SolHookState.initial

/-- Environment of one `useSolanaPay` operation.  The read-only Solana
RPC lookups (`getLatestBlockhash`, mint owner/decimals, token-account
existence) are pre-read into fields; `ataOf mint owner programId` stands
for the deterministic `getAssociatedTokenAddress` derivation;
`signResp` folds the Privy/external wallet-adapter signing branches. -/
structure SolCtx where
  apiKey : Option String
  apiUrl : String
  network : Option String
  token : TokenConfig
  autoSettle : Bool
  isConnected : Bool
  address : Option String
  usdcSolana : TokenConfig
  usdcSolanaDevnet : TokenConfig
  blockhash : String
  mintIsToken2022 : Bool
  mintDecimals : ℕ
  ataOf : String → String → String → String
  sourceAtaExists : Bool
  destAtaExists : Bool
  signResp : Except String Unit
  facilResp : FacilResp
  bridgeResp : ApiResp
  verifyResp : ApiResp
  settleResp : ApiResp

/-- `useSolanaPay.signSolanaPayment`: wallet check, token resolution
(devnet vs mainnet USDC), amount parsing, ATA derivation, the
source-token-account precondition, the fixed-position compute-budget
instructions, conditional ATA creation, the checked transfer,
facilitator ranking and fee-payer resolution, transaction compilation
and the user's partial signature.  Every error thrown inside the outer
`try` is re-thrown as `"Solana payment failed: " + message`. -/
def signSolanaPayment (ctx : SolCtx) (params : PaymentParams) :
    Except String SolHeader × List SolEvent :=
  if ¬ (ctx.isConnected ∧ ctx.address ≠ none) then
    (.error "Solana wallet not connected", [])
  else
    let address := ctx.address.getD ""
    let isCrossChain : Bool :=
      match jsTruthy params.sourceNetwork, jsTruthy params.destinationNetwork with
      | some s, some d => s != d
      | _, _ => false
    let devnet :=
      match params.sourceNetwork with
      | some s => containsSeq "devnet".data s.data
      | none => false
    let useToken :=
      params.token.getD (if devnet then ctx.usdcSolanaDevnet else ctx.usdcSolana)
    let events0 := [SolEvent.cbSigningStart]
    let amountBigInt := validateAmount params.amount useToken.decimals
    let destination := params.toAddr
    let actualRecipient := params.toAddr
    let mint := useToken.address
    let programId := if ctx.mintIsToken2022 then TOKEN_2022_PROGRAM_ID else TOKEN_PROGRAM_ID
    let sourceAta := ctx.ataOf mint address programId
    let destinationAta := ctx.ataOf mint destination programId
    if ¬ ctx.sourceAtaExists then
      (.error ("Solana payment failed: You don't have a " ++ useToken.symbol ++
        " token account. Please fund your Solana wallet with " ++ useToken.symbol ++ " first."),
       events0)
    else
      let instructions : List SolInstr :=
        [.computeUnitLimit 40000, .computeUnitPrice 1] ++
        (if ctx.destAtaExists then []
         else [.createAta address destinationAta destination mint]) ++
        [.transferChecked sourceAta mint destinationAta address amountBigInt ctx.mintDecimals]
      let priority := jsOrStr params.priority "balanced"
      let events1 := events0 ++ [SolEvent.facilReq "solana" priority]
      match getRankedFacilitators ctx.facilResp with
      | .error e =>
        (.error ("Solana payment failed: Facilitator selection failed: " ++ e), events1)
      | .ok topFacilitatorName =>
        match getSolanaFeePayer topFacilitatorName with
        | .error e => (.error ("Solana payment failed: " ++ e), events1)
        | .ok feePayer =>
          let transaction : SolTx :=
            { feePayer := feePayer, recentBlockhash := ctx.blockhash
              instructions := instructions }
          let events2 := events1 ++ [SolEvent.signReq transaction]
          match ctx.signResp with
          | .error e =>
            (.error ("Solana payment failed: Wallet signing failed: " ++ e), events2)
          | .ok _ =>
            let payload : SolPayload :=
              { transaction := transaction
                destinationNetwork := if isCrossChain then params.destinationNetwork else none
                destinationAddress := if isCrossChain then some actualRecipient else none }
            let header : SolHeader :=
              { x402Version := 1, scheme := "exact"
                network := jsOrStr params.sourceNetwork "solana", payload := payload }
            (.ok header, events2 ++ [SolEvent.cbSigningComplete])

/-- Failure return shared by the `catch` paths of `useSolanaPay.verify`. -/
def verifyFailSol (stNow : SolHookState) (events : List SolEvent) (e : String) :
    VerifyResult SolHeader × SolHookState × List SolEvent :=
  ({ success := false, error := some e, verified := none, x402Header := none
     sourceNetwork := none, destinationNetwork := none, priority := none },
   { stNow with errorMsg := some e }, events ++ [.cbError e])

/-- `useSolanaPay.verify`: credential check, network/priority resolution
(defaulting to `"solana"`), bridge preparation for cross-chain intents,
Solana signing with the resolved networks and (for cross-chain) the
deposit address as recipient, persisting the pending payment state, and
the `/v1/verify` call. -/
def verifySol (ctx : SolCtx) (st : SolHookState) (params : PaymentParams) :
    VerifyResult SolHeader × SolHookState × List SolEvent :=
  match jsTruthy ctx.apiKey with
  | none =>
    let msg := "Onchain API key not provided"
    ({ success := false, error := some msg, verified := none, x402Header := none
       sourceNetwork := none, destinationNetwork := none, priority := none },
     { st with errorMsg := some msg }, [.cbError msg])
  | some _ =>
    let st := { st with errorMsg := none }
    let sourceNetwork :=
      jsOrStr params.sourceNetwork (jsOrStr params.network (jsOrStr ctx.network "solana"))
    let destinationNetwork :=
      jsOrStr params.destinationNetwork (jsOrStr params.network (jsOrStr ctx.network "solana"))
    let priority := jsOrStr params.priority "balanced"
    let isCrossChain := sourceNetwork ≠ destinationNetwork
    let events0 := [SolEvent.cbVerificationStart]
    let bridgeEvents :=
      if isCrossChain then
        [SolEvent.bridgeReq sourceNetwork destinationNetwork params.amount params.toAddr]
      else []
    let bridgeStep : Except String (String × Option String) :=
      if isCrossChain then
        match prepareBridgeResp ctx.bridgeResp with
        | .error e => .error e
        | .ok bd => .ok (bd.depositAddress, some bd.orderId)
      else .ok (params.toAddr, none)
    match bridgeStep with
    | .error e => verifyFailSol st (events0 ++ bridgeEvents) e
    | .ok (recipientAddress, bridgeOrderId) =>
      let signStep := signSolanaPayment ctx
        { params with toAddr := recipientAddress
                      sourceNetwork := some sourceNetwork
                      destinationNetwork := some destinationNetwork }
      match signStep.1 with
      | .error e => verifyFailSol st (events0 ++ bridgeEvents ++ signStep.2) e
      | .ok x402Header =>
        let st1 := { st with paymentState :=
          { x402Header := some x402Header, sourceNetwork := some sourceNetwork
            destinationNetwork := some destinationNetwork, priority := some priority } }
        let body : VerifyBody SolHeader :=
          { paymentHeader := x402Header
            sourceNetwork := sourceNetwork, destinationNetwork := destinationNetwork
            expectedAmount := params.amount
            expectedToken := jsOrStr (params.token.map (·.symbol)) ctx.token.symbol
            recipientAddress := if isCrossChain then recipientAddress else params.toAddr
            finalRecipient := none
            priority := priority
            bridgeOrderId := jsTruthy bridgeOrderId
            expectedFees := none
            needsATACreation := none }
        let events1 := events0 ++ bridgeEvents ++ signStep.2 ++ [.verifyReq body]
        match verifyPaymentResp ctx.verifyResp with
        | .error e => verifyFailSol st1 events1 e
        | .ok _ =>
          ({ success := true, error := none, verified := some true
             x402Header := some x402Header, sourceNetwork := some sourceNetwork
             destinationNetwork := some destinationNetwork, priority := some priority },
           st1, events1 ++ [.cbVerificationComplete])

/-- `useSolanaPay.settleInternal`: credential check, then POST to
`/v1/settle`.  As in the EVM hook, the call site passes no `paymentId`. -/
def settleInternalSol (ctx : SolCtx) (st : SolHookState) (x402Header : SolHeader)
    (sourceNetwork destinationNetwork priority : String) :
    PaymentResultR × SolHookState × List SolEvent :=
  match jsTruthy ctx.apiKey with
  | none =>
    let msg := "Onchain API key not provided"
    ({ success := false, txHash := none, error := some msg, verified := none, settled := none },
     { st with errorMsg := some msg }, [])
  | some _ =>
    let st := { st with errorMsg := none }
    let body : SettleBody SolHeader :=
      { paymentId := none, paymentHeader := x402Header
        sourceNetwork := sourceNetwork, destinationNetwork := destinationNetwork
        priority := priority }
    let events := [SolEvent.cbSettlementStart, .settleReq body]
    match settlePaymentResp ctx.settleResp with
    | .error e =>
      ({ success := false, txHash := none, error := some e, verified := none, settled := none },
       { st with errorMsg := some e }, events ++ [.cbError e])
    | .ok r =>
      let txHash := jsOrStr r.dataTxHash ""
      ({ success := true, txHash := some txHash, error := none, verified := none
         settled := some true },
       { st with lastTxHash := some txHash }, events ++ [.cbSettlementComplete, .cbSuccess txHash])

/-- `useSolanaPay.settle`. -/
def settleSol (ctx : SolCtx) (st : SolHookState) :
    PaymentResultR × SolHookState × List SolEvent :=
  match jsTruthy ctx.apiKey with
  | none =>
    let msg := "Onchain API key not provided"
    ({ success := false, txHash := none, error := some msg, verified := none, settled := none },
     { st with errorMsg := some msg }, [])
  | some _ =>
    match st.paymentState.x402Header with
    | none =>
      let msg := "No payment to settle. Call verify() first."
      ({ success := false, txHash := none, error := some msg, verified := none, settled := none },
       { st with errorMsg := some msg }, [])
    | some h =>
      settleInternalSol ctx st h (st.paymentState.sourceNetwork.getD "")
        (st.paymentState.destinationNetwork.getD "") (st.paymentState.priority.getD "")

/-- `useSolanaPay.pay`. -/
def paySol (ctx : SolCtx) (st : SolHookState) (params : PaymentParams) :
    PaymentResultR × SolHookState × List SolEvent :=
  let vstep := verifySol ctx st params
  let vr := vstep.1
  if ¬ vr.success then
    ({ success := vr.success, txHash := none, error := vr.error, verified := vr.verified
       settled := none }, vstep.2.1, vstep.2.2)
  else if ctx.autoSettle then
    match vr.x402Header with
    | some h =>
      let sstep := settleInternalSol ctx vstep.2.1 h
        (vr.sourceNetwork.getD "") (vr.destinationNetwork.getD "") (vr.priority.getD "")
      (sstep.1, sstep.2.1, vstep.2.2 ++ sstep.2.2)
    | none =>
      ({ success := vr.success, txHash := none, error := vr.error, verified := vr.verified
         settled := none }, vstep.2.1, vstep.2.2)
  else
    ({ success := vr.success, txHash := none, error := vr.error, verified := vr.verified
       settled := none }, vstep.2.1, vstep.2.2)

/-! ## Spec-rendered definitions and concrete fixtures

`claimedFailureMessage` renders the spec's error-message rule word for
word, to be compared against the code's `apiErrorMessage`;
`amendedFailureMessage` renders the amended rule.  The remaining
definitions are concrete environments used to evaluate the embedded
operations at specific inputs. -/

/-- The failure-message rule as the specification states it: the
`error.message` concatenated with `error.hint` when present, else the
top-level `message`, else the generic default. -/
def claimedFailureMessage (r : ApiResp) (defaultMsg : String) : String :=
  match r.errorMessage with
  | some m =>
    match r.errorHint with
    | some h => m ++ " " ++ h
    | none => m
  | none =>
    match r.message with
    | some m => m
    | none => defaultMsg

/-- The amended failure-message rule: the first present-and-nonempty of
`error.message`, top-level `message`, `data.reason`, else the generic
default, with a present-and-nonempty `error.hint` appended to whichever
was chosen. -/
def amendedFailureMessage (r : ApiResp) (defaultMsg : String) : String :=
  let base :=
    match jsTruthy r.errorMessage with
    | some m => m
    | none =>
      match jsTruthy r.message with
      | some m => m
      | none =>
        match jsTruthy r.dataReason with
        | some m => m
        | none => defaultMsg
  match jsTruthy r.errorHint with
  | some h => base ++ " " ++ h
  | none => base

/-- Event filter: settle requests among the EVM hook's events. -/
def isSettleReqEvm : EvmEvent → Bool
  | .settleReq _ => true
  | _ => false

/-- Event filter: settle requests among the Solana hook's events. -/
def isSettleReqSol : SolEvent → Bool
  | .settleReq _ => true
  | _ => false

/-- USDC-like token fixture. -/
def tkn : TokenConfig :=
  { address := "0xUSDC", symbol := "USDC", decimals := 6, name := some "USD Coin" }

/-- Solana USDC-like token fixture. -/
def susdc : TokenConfig :=
  { address := "SUSDC", symbol := "USDC", decimals := 6, name := none }

/-- A verify response the backend rejects (`valid:false`) inside a
`status:"success"`, HTTP-ok envelope. -/
def respVerifyRejected : ApiResp :=
  { ok := true, status := some "success", errorMessage := none, errorHint := none
    message := none, dataReason := some "verification rejected", dataValid := some false
    dataSettled := none, dataPaymentId := none, dataTxHash := none
    dataDepositAddress := none, dataOrderId := none }

/-- A successful verify response carrying a backend-issued `paymentId`. -/
def respVerifyOk : ApiResp :=
  { ok := true, status := some "success", errorMessage := none, errorHint := none
    message := none, dataReason := none, dataValid := some true, dataSettled := none
    dataPaymentId := some "pay_123", dataTxHash := none
    dataDepositAddress := none, dataOrderId := none }

/-- A successful settle response carrying a transaction hash. -/
def respSettleOk : ApiResp :=
  { ok := true, status := some "success", errorMessage := none, errorHint := none
    message := none, dataReason := none, dataValid := none, dataSettled := some true
    dataPaymentId := none, dataTxHash := some "0xHASH"
    dataDepositAddress := none, dataOrderId := none }

/-- EVM environment whose backend rejects verification but accepts
settlement. -/
def c2Ctx : EvmCtx :=
  { apiKey := some "k", apiUrl := "u", network := none, chainId := 8453, token := tkn
    autoSettle := true, isConnected := true, address := some "0xUSER"
    currentChainId := 8453, intermediateWallet := "0xINT"
    feeConfig := DEFAULT_FEE_CONFIG, parsedAmount := 1/10, nonce := "0xN", now := 1000
    signResp := .ok "0xSIG", bridgeResp := respVerifyOk, verifyResp := respVerifyRejected
    settleResp := respSettleOk }

/-- Same-network Base payment parameters. -/
def c2Params : PaymentParams :=
  { toAddr := "0xRCPT", amount := "0.10", sourceNetwork := some "base"
    destinationNetwork := some "base", network := none, chainId := none
    token := none, priority := none }

/-- Solana environment with a configured key, used on an empty state. -/
def c2wCtx : SolCtx :=
  { apiKey := some "k", apiUrl := "u", network := none, token := tkn
    autoSettle := true, isConnected := true, address := some "SOLUSER"
    usdcSolana := tkn, usdcSolanaDevnet := tkn, blockhash := "BH"
    mintIsToken2022 := false, mintDecimals := 6
    ataOf := fun m o _ => m ++ "@" ++ o
    sourceAtaExists := true, destAtaExists := true, signResp := .ok ()
    facilResp := { ok := true, httpStatus := 200, facilitators := ["PayAI"] }
    bridgeResp := respVerifyOk, verifyResp := respVerifyOk, settleResp := respSettleOk }

/-- EVM environment whose backend accepts both verify and settle. -/
def c3Ctx : EvmCtx :=
  { apiKey := some "k", apiUrl := "u", network := none, chainId := 8453, token := tkn
    autoSettle := false, isConnected := true, address := some "0xUSER"
    currentChainId := 8453, intermediateWallet := "0xINT"
    feeConfig := DEFAULT_FEE_CONFIG, parsedAmount := 1/10, nonce := "0xN", now := 1000
    signResp := .ok "0xSIG", bridgeResp := respVerifyOk, verifyResp := respVerifyOk
    settleResp := respSettleOk }

/-- A held EVM header, as left behind by a successful signing step. -/
def c3wHeader : X402HeaderEvm :=
  { x402Version := 1, scheme := "exact", network := "base"
    payload := { signature := "0xSIG"
                 authorization := { fromAddr := "0xUSER", toAddr := "0xINT", value := 100000
                                    validAfter := 0, validBefore := 4600, nonce := "0xN" } } }

/-- EVM environment for exercising `settle` with a held payment. -/
def c1Ctx : EvmCtx :=
  { apiKey := some "k", apiUrl := "u", network := none, chainId := 8453, token := tkn
    autoSettle := true, isConnected := true, address := some "0xUSER"
    currentChainId := 8453, intermediateWallet := "0xINT"
    feeConfig := DEFAULT_FEE_CONFIG, parsedAmount := 1/10, nonce := "0xN", now := 1000
    signResp := .ok "0xSIG", bridgeResp := respVerifyOk, verifyResp := respVerifyOk
    settleResp := respSettleOk }

/-- Hook state holding a verified payment. -/
def c1St : EvmHookState :=
  { paymentState :=
      { signature := some "0xSIG", x402Header := some c3wHeader
        sourceNetwork := some "base", destinationNetwork := some "base"
        priority := some "balanced" }
    lastTxHash := none, errorMsg := none }

/-- The settle request body the EVM hook sends for `c1St`. -/
def c1Body : SettleBody X402HeaderEvm :=
  { paymentId := none, paymentHeader := c3wHeader, sourceNetwork := "base"
    destinationNetwork := "base", priority := "balanced" }

/-- A response that fails verification and carries only `data.reason`
and `error.hint`. -/
def c9Resp : ApiResp :=
  { ok := true, status := some "error", errorMessage := none, errorHint := some "H"
    message := none, dataReason := some "R", dataValid := some false, dataSettled := none
    dataPaymentId := none, dataTxHash := none, dataDepositAddress := none, dataOrderId := none }

/-- Bridge-prepare response with a deposit address and order id. -/
def c4BridgeResp : ApiResp :=
  { ok := true, status := some "success", errorMessage := none, errorHint := none
    message := none, dataReason := none, dataValid := none, dataSettled := none
    dataPaymentId := none, dataTxHash := none
    dataDepositAddress := some "0xDEPOSIT", dataOrderId := some "order-1" }

/-- EVM environment for a cross-chain payment. -/
def c4eCtx : EvmCtx :=
  { apiKey := some "k", apiUrl := "u", network := none, chainId := 8453, token := tkn
    autoSettle := true, isConnected := true, address := some "0xUSER"
    currentChainId := 8453, intermediateWallet := "0xINT"
    feeConfig := DEFAULT_FEE_CONFIG, parsedAmount := 1/10, nonce := "0xN", now := 1000
    signResp := .ok "0xSIG", bridgeResp := c4BridgeResp, verifyResp := respVerifyOk
    settleResp := respSettleOk }

/-- Cross-chain EVM payment parameters (Base to Optimism). -/
def c4eParams : PaymentParams :=
  { toAddr := "0xRCPT", amount := "0.10", sourceNetwork := some "base"
    destinationNetwork := some "optimism", network := none, chainId := none
    token := none, priority := none }

/-- Bridge-prepare response for the Solana leg. -/
def c4sBridgeResp : ApiResp :=
  { ok := true, status := some "success", errorMessage := none, errorHint := none
    message := none, dataReason := none, dataValid := none, dataSettled := none
    dataPaymentId := none, dataTxHash := none
    dataDepositAddress := some "DEPOSIT", dataOrderId := some "order-2" }

/-- Solana environment for a cross-chain payment. -/
def c4sCtx : SolCtx :=
  { apiKey := some "k", apiUrl := "u", network := none, token := tkn
    autoSettle := true, isConnected := true, address := some "SOLUSER"
    usdcSolana := susdc, usdcSolanaDevnet := susdc, blockhash := "BH"
    mintIsToken2022 := false, mintDecimals := 6
    ataOf := fun m o _ => m ++ "@" ++ o
    sourceAtaExists := true, destAtaExists := false, signResp := .ok ()
    facilResp := { ok := true, httpStatus := 200, facilitators := ["PayAI"] }
    bridgeResp := c4sBridgeResp, verifyResp := respVerifyOk, settleResp := respSettleOk }

/-- Cross-chain Solana payment parameters (Solana to Base). -/
def c4sParams : PaymentParams :=
  { toAddr := "FINAL", amount := "1.5", sourceNetwork := some "solana"
    destinationNetwork := some "base", network := none, chainId := none
    token := none, priority := none }

/-- EVM environment whose wallet sits on chain 1 instead of Base. -/
def c5Ctx : EvmCtx :=
  { apiKey := some "k", apiUrl := "u", network := none, chainId := 8453, token := tkn
    autoSettle := true, isConnected := true, address := some "0xUSER"
    currentChainId := 1, intermediateWallet := "0xINT"
    feeConfig := DEFAULT_FEE_CONFIG, parsedAmount := 1/10, nonce := "0xN", now := 1000
    signResp := .ok "0xSIG", bridgeResp := respVerifyOk, verifyResp := respVerifyOk
    settleResp := respSettleOk }

/-- Same-network Base payment parameters for the mismatch scenario. -/
def c5Params : PaymentParams :=
  { toAddr := "0xRCPT", amount := "0.10", sourceNetwork := some "base"
    destinationNetwork := some "base", network := none, chainId := none
    token := none, priority := none }

/-- Solana environment needing destination-account creation. -/
def c6Ctx : SolCtx :=
  { apiKey := some "k", apiUrl := "u", network := none, token := tkn
    autoSettle := true, isConnected := true, address := some "SOLUSER"
    usdcSolana := susdc, usdcSolanaDevnet := susdc, blockhash := "BH"
    mintIsToken2022 := false, mintDecimals := 6
    ataOf := fun m o _ => m ++ "@" ++ o
    sourceAtaExists := true, destAtaExists := false, signResp := .ok ()
    facilResp := { ok := true, httpStatus := 200, facilitators := ["PayAI"] }
    bridgeResp := respVerifyOk, verifyResp := respVerifyOk, settleResp := respSettleOk }

/-- Same-network Solana payment parameters. -/
def c6Params : PaymentParams :=
  { toAddr := "DEST", amount := "1.5", sourceNetwork := some "solana"
    destinationNetwork := some "solana", network := none, chainId := none
    token := none, priority := none }

/-! ## Helper lemmas -/

/-! ### Decimal-string arithmetic

Lemmas relating `digitsToNat`, `natToDigits`, padding and trailing-zero
stripping, leading to the parse/format characterizations. -/

theorem digitsToNat_aux (a : ℕ) (ys : List Char) :
    ys.foldl (fun acc c => 10 * acc + digitVal c) a = a * 10 ^ ys.length + digitsToNat ys := by
  induction ys generalizing a with
  | nil => simp [digitsToNat]
  | cons c t ih =>
    simp only [List.foldl_cons, digitsToNat, List.length_cons]
    rw [ih (10 * a + digitVal c), ih (10 * 0 + digitVal c)]
    ring

theorem digitsToNat_append (xs ys : List Char) :
    digitsToNat (xs ++ ys) = digitsToNat xs * 10 ^ ys.length + digitsToNat ys := by
  rw [digitsToNat, List.foldl_append, digitsToNat_aux]
  rfl

theorem digitsToNat_replicate_zero (k : ℕ) :
    digitsToNat (List.replicate k '0') = 0 := by
  induction k with
  | zero => rfl
  | succ n ih =>
    rw [List.replicate_succ, digitsToNat, List.foldl_cons]
    have : (10 * 0 + digitVal '0') = 0 := by decide
    rw [this]
    exact ih

theorem digitVal_natDigitChar (k : ℕ) (h : k < 10) : digitVal (natDigitChar k) = k := by
  interval_cases k <;> decide

theorem isDecDigit_natDigitChar (k : ℕ) (h : k < 10) : isDecDigit (natDigitChar k) = true := by
  interval_cases k <;> decide

theorem isDecDigit_ne_dot (c : Char) (h : isDecDigit c = true) : c ≠ '.' := by
  intro hc
  rw [hc] at h
  exact absurd h (by decide)

theorem digitsToNat_natToDigits (n : ℕ) : digitsToNat (natToDigits n) = n := by
  induction n using Nat.strong_induction_on with
  | _ n ih =>
    rw [natToDigits]
    by_cases h : n < 10
    · simp only [h, dif_pos]
      show digitsToNat [natDigitChar n] = n
      rw [digitsToNat, List.foldl_cons]
      simpa using digitVal_natDigitChar n h
    · simp only [h, dif_neg, not_false_iff]
      rw [digitsToNat_append, ih (n / 10) (Nat.div_lt_self (by omega) (by omega))]
      have h10 : n % 10 < 10 := Nat.mod_lt _ (by omega)
      show n / 10 * 10 ^ 1 + digitsToNat [natDigitChar (n % 10)] = n
      rw [digitsToNat, List.foldl_cons]
      simp only [pow_one]
      have := digitVal_natDigitChar (n % 10) h10
      simp only [List.foldl_nil, Nat.mul_zero, Nat.zero_add, this]
      omega

theorem natToDigits_all_digits (n : ℕ) : ∀ c ∈ natToDigits n, isDecDigit c = true := by
  induction n using Nat.strong_induction_on with
  | _ n ih =>
    rw [natToDigits]
    by_cases h : n < 10
    · simp only [h, dif_pos]
      intro c hc
      rw [List.mem_singleton] at hc
      rw [hc]
      exact isDecDigit_natDigitChar n h
    · simp only [h, dif_neg, not_false_iff]
      intro c hc
      rcases List.mem_append.mp hc with h1 | h2
      · exact ih (n / 10) (Nat.div_lt_self (by omega) (by omega)) c h1
      · rw [List.mem_singleton] at h2
        rw [h2]
        exact isDecDigit_natDigitChar (n % 10) (Nat.mod_lt _ (by omega))

theorem digitVal_lt_ten (c : Char) (h : isDecDigit c = true) : digitVal c < 10 := by
  rw [isDecDigit] at h
  simp only [Bool.and_eq_true, decide_eq_true_eq] at h
  rw [digitVal]
  rcases h with ⟨h1, h2⟩
  have : c.toNat ≤ 57 := h2
  have : 48 ≤ c.toNat := h1
  omega

theorem digitsToNat_lt (s : List Char) (h : ∀ c ∈ s, isDecDigit c = true) :
    digitsToNat s < 10 ^ s.length := by
  induction s with
  | nil => simp [digitsToNat]
  | cons c t ih =>
    rw [digitsToNat, List.foldl_cons, digitsToNat_aux, List.length_cons]
    have hc := digitVal_lt_ten c (h c (List.mem_cons_self c t))
    have ht := ih (fun x hx => h x (List.mem_cons_of_mem c hx))
    have : (10 * 0 + digitVal c) * 10 ^ t.length ≤ 9 * 10 ^ t.length := by
      apply Nat.mul_le_mul_right
      omega
    calc (10 * 0 + digitVal c) * 10 ^ t.length + digitsToNat t
        < (10 * 0 + digitVal c) * 10 ^ t.length + 10 ^ t.length := by omega
      _ ≤ 9 * 10 ^ t.length + 10 ^ t.length := by omega
      _ = 10 ^ (t.length + 1) := by ring
  
theorem natToDigits_length_le (n k : ℕ) (hn : n < 10 ^ k) (hk : 1 ≤ k) :
    (natToDigits n).length ≤ k := by
  induction n using Nat.strong_induction_on generalizing k with
  | _ n ih =>
    rw [natToDigits]
    by_cases h : n < 10
    · simp only [h, dif_pos, List.length_singleton]
      omega
    · simp only [h, dif_neg, not_false_iff, List.length_append, List.length_singleton]
      have hk2 : 2 ≤ k := by
        by_contra hc
        push_neg at hc
        interval_cases k
        · omega
      have hdiv : n / 10 < 10 ^ (k - 1) := by
        rw [Nat.div_lt_iff_lt_mul (by omega)]
        calc n < 10 ^ k := hn
          _ = 10 ^ (k - 1) * 10 := by
            rw [← pow_succ]
            congr 1
            omega
      have := ih (n / 10) (Nat.div_lt_self (by omega) (by omega)) (k - 1) hdiv (by omega)
      omega

theorem takeWhile_all_digits (s : List Char) (h : ∀ c ∈ s, isDecDigit c = true) :
    s.takeWhile (· ≠ '.') = s := by
  induction s with
  | nil => rfl
  | cons c t ih =>
    have hc : c ≠ '.' := isDecDigit_ne_dot c (h c (List.mem_cons_self c t))
    rw [List.takeWhile_cons, if_pos (by simp [hc]),
      ih (fun x hx => h x (List.mem_cons_of_mem c hx))]

theorem dropWhile_all_digits (s : List Char) (h : ∀ c ∈ s, isDecDigit c = true) :
    s.dropWhile (· ≠ '.') = [] := by
  induction s with
  | nil => rfl
  | cons c t ih =>
    have hc : c ≠ '.' := isDecDigit_ne_dot c (h c (List.mem_cons_self c t))
    rw [List.dropWhile_cons, if_pos (by simp [hc])]
    exact ih (fun x hx => h x (List.mem_cons_of_mem c hx))

theorem wholePart_split (w f : List Char) (hw : ∀ c ∈ w, isDecDigit c = true) :
    wholePart (w ++ '.' :: f) = w := by
  rw [wholePart, List.takeWhile_append, takeWhile_all_digits w hw]
  simp [dropWhile_all_digits w hw, takeWhile_all_digits w hw]

theorem fractionPart_split (w f : List Char) (hw : ∀ c ∈ w, isDecDigit c = true)
    (hf : ∀ c ∈ f, isDecDigit c = true) :
    fractionPart (w ++ '.' :: f) = f := by
  rw [fractionPart, List.dropWhile_append, dropWhile_all_digits w hw]
  simp only [List.isEmpty_nil, if_pos]
  rw [List.dropWhile_cons, if_neg (by simp)]
  simp only [List.drop_succ_cons, List.drop_zero]
  exact takeWhile_all_digits f hf

theorem wholePart_nodot (w : List Char) (hw : ∀ c ∈ w, isDecDigit c = true) :
    wholePart w = w := takeWhile_all_digits w hw

theorem fractionPart_nodot (w : List Char) (hw : ∀ c ∈ w, isDecDigit c = true) :
    fractionPart w = [] := by
  rw [fractionPart, dropWhile_all_digits w hw]
  rfl

theorem padTake_of_le (f : List Char) (d : ℕ) (h : f.length ≤ d) :
    (padEnd f d '0').take d = f ++ List.replicate (d - f.length) '0' := by
  rw [padEnd]
  have hlen : (f ++ List.replicate (d - f.length) '0').length = d := by
    simp only [List.length_append, List.length_replicate]
    omega
  exact List.take_of_length_le (le_of_eq hlen)

theorem padTake_of_ge (f : List Char) (d : ℕ) (h : d ≤ f.length) :
    (padEnd f d '0').take d = f.take d := by
  rw [padEnd]
  have hz : d - f.length = 0 := by omega
  rw [hz, List.replicate_zero, List.append_nil]

theorem padTake_length (f : List Char) (d : ℕ) :
    ((padEnd f d '0').take d).length = d := by
  rw [List.length_take, padEnd, List.length_append, List.length_replicate]
  omega

theorem parseTokenAmount_split (w f : List Char) (d : ℕ)
    (hw : ∀ c ∈ w, isDecDigit c = true) (hf : ∀ c ∈ f, isDecDigit c = true) :
    parseTokenAmount (w ++ '.' :: f) d =
      digitsToNat w * 10 ^ d + digitsToNat ((padEnd f d '0').take d) := by
  show digitsToNat (wholePart (w ++ '.' :: f) ++
    (padEnd (fractionPart (w ++ '.' :: f)) d '0').take d) = _
  rw [wholePart_split w f hw, fractionPart_split w f hw hf, digitsToNat_append,
    padTake_length]

theorem parseTokenAmount_nodot (w : List Char) (d : ℕ)
    (hw : ∀ c ∈ w, isDecDigit c = true) :
    parseTokenAmount w d = digitsToNat w * 10 ^ d := by
  show digitsToNat (wholePart w ++ (padEnd (fractionPart w) d '0').take d) = _
  rw [wholePart_nodot w hw, fractionPart_nodot w hw, digitsToNat_append, padTake_length]
  have : (padEnd ([] : List Char) d '0').take d = List.replicate d '0' := by
    rw [padEnd, List.nil_append, List.length_nil, Nat.sub_zero, List.take_replicate,
      Nat.min_self]
  rw [this, digitsToNat_replicate_zero, Nat.add_zero]

theorem dropTrailingZeros_decomp (s : List Char) :
    s = dropTrailingZeros s ++
      List.replicate (s.length - (dropTrailingZeros s).length) '0'
    ∧ (dropTrailingZeros s).length ≤ s.length := by
  rw [dropTrailingZeros]
  have hsplit := List.takeWhile_append_dropWhile (p := (· = '0')) (l := s.reverse)
  have htw : s.reverse.takeWhile (· = '0') =
      List.replicate (s.reverse.takeWhile (· = '0')).length '0' := by
    rw [List.eq_replicate_length]
    intro b hb
    have := List.mem_takeWhile_imp hb
    simpa using this
  constructor
  · conv_lhs => rw [← s.reverse_reverse, ← hsplit]
    rw [List.reverse_append, htw, List.reverse_replicate]
    congr 2
    have hlen : s.length =
        (s.reverse.takeWhile (· = '0')).length + (s.reverse.dropWhile (· = '0')).length := by
      conv_lhs => rw [← s.length_reverse, ← hsplit]
      rw [List.length_append]
    rw [List.length_reverse]
    omega
  · rw [List.length_reverse]
    have hlen : s.length =
        (s.reverse.takeWhile (· = '0')).length + (s.reverse.dropWhile (· = '0')).length := by
      conv_lhs => rw [← s.length_reverse, ← hsplit]
      rw [List.length_append]
    omega

theorem mem_dropTrailingZeros (s : List Char) (c : Char)
    (hc : c ∈ dropTrailingZeros s) : c ∈ s := by
  have h := (dropTrailingZeros_decomp s).1
  rw [h]
  exact List.mem_append_left _ hc

theorem digitsToNat_replicate_prefix (k : ℕ) (s : List Char) :
    digitsToNat (List.replicate k '0' ++ s) = digitsToNat s := by
  rw [digitsToNat_append, digitsToNat_replicate_zero, Nat.zero_mul, Nat.zero_add]

theorem decimalVal_formatTokenAmount (n d : ℕ) :
    decimalVal (formatTokenAmount n d) = (n : ℚ) / 10 ^ d := by
  by_cases hrem : n % 10 ^ d = 0
  · have hfmt : formatTokenAmount n d = natToDigits (n / 10 ^ d) := by
      rw [formatTokenAmount]
      simp [hrem]
    rw [hfmt, decimalVal, wholePart_nodot _ (natToDigits_all_digits _),
      fractionPart_nodot _ (natToDigits_all_digits _), digitsToNat_natToDigits]
    have hdvd : (10 : ℕ) ^ d ∣ n := Nat.dvd_of_mod_eq_zero hrem
    rw [List.length_nil, pow_zero]
    have hnil : digitsToNat [] = 0 := rfl
    rw [hnil]
    field_simp
  · have hd1 : 1 ≤ d := by
      by_contra hc
      push_neg at hc
      interval_cases d
      exact hrem (Nat.mod_one n)
    have hfmt : formatTokenAmount n d =
        natToDigits (n / 10 ^ d) ++ '.' ::
          dropTrailingZeros (padStart (natToDigits (n % 10 ^ d)) d '0') := by
      rw [formatTokenAmount]
      simp [hrem]
    set rem := n % 10 ^ d with hremdef
    set remStr := padStart (natToDigits rem) d '0' with hremStr
    set trimmed := dropTrailingZeros remStr with htrimmed
    have hremlt : rem < 10 ^ d := Nat.mod_lt _ (by positivity)
    have hndlen : (natToDigits rem).length ≤ d := natToDigits_length_le rem d hremlt hd1
    have hremStrLen : remStr.length = d := by
      rw [hremStr, padStart, List.length_append, List.length_replicate]
      omega
    have hremStrVal : digitsToNat remStr = rem := by
      rw [hremStr, padStart, digitsToNat_replicate_prefix, digitsToNat_natToDigits]
    have hremStrDigits : ∀ c ∈ remStr, isDecDigit c = true := by
      intro c hc
      rw [hremStr, padStart] at hc
      rcases List.mem_append.mp hc with h1 | h2
      · have := List.eq_of_mem_replicate h1
        rw [this]
        decide
      · exact natToDigits_all_digits _ c h2
    obtain ⟨hdecomp, hlenle⟩ := dropTrailingZeros_decomp remStr
    rw [← htrimmed] at hdecomp hlenle
    set z := remStr.length - trimmed.length with hz
    have htrimDigits : ∀ c ∈ trimmed, isDecDigit c = true := fun c hc =>
      hremStrDigits c (mem_dropTrailingZeros _ c hc)
    have hremVal : rem = digitsToNat trimmed * 10 ^ z := by
      rw [← hremStrVal]
      conv_lhs => rw [hdecomp]
      rw [digitsToNat_append, digitsToNat_replicate_zero, List.length_replicate,
        Nat.add_zero]
    have htrimLen : trimmed.length = d - z := by
      rw [hz]
      omega
    have hzle : z ≤ d := by
      rw [hz]
      omega
    rw [hfmt, decimalVal, wholePart_split _ _ (natToDigits_all_digits _),
      fractionPart_split _ _ (natToDigits_all_digits _) htrimDigits,
      digitsToNat_natToDigits, htrimLen]
    have hpow : (10 : ℚ) ^ d = 10 ^ (d - z) * 10 ^ z := by
      rw [← pow_add]
      congr 1
      omega
    have hn : (n : ℚ) = (n / 10 ^ d : ℕ) * 10 ^ d + (digitsToNat trimmed : ℚ) * 10 ^ z := by
      have : ((n / 10 ^ d : ℕ) : ℚ) * 10 ^ d + (digitsToNat trimmed : ℚ) * 10 ^ z =
          ((n / 10 ^ d * 10 ^ d + digitsToNat trimmed * 10 ^ z : ℕ) : ℚ) := by
        push_cast
        ring
      rw [this, ← hremVal]
      congr 1
      rw [hremdef]
      have hdm := Nat.div_add_mod n (10 ^ d)
      rw [Nat.mul_comm] at hdm
      omega
    rw [hn, hpow]
    have h1 : (10 : ℚ) ^ (d - z) ≠ 0 := by positivity
    have h2 : (10 : ℚ) ^ z ≠ 0 := by positivity
    field_simp
    ring

theorem wellFormed_decompose (a : List Char) (h : wellFormedAmount a = true) :
    (∀ c ∈ a, isDecDigit c = true) ∨
    ∃ w f, a = w ++ '.' :: f ∧ (∀ c ∈ w, isDecDigit c = true) ∧
      (∀ c ∈ f, isDecDigit c = true) := by
  induction a with
  | nil => exact Or.inl (by intro c hc; cases hc)
  | cons c t ih =>
    rw [wellFormedAmount, Bool.and_eq_true] at h
    obtain ⟨hfil, hall⟩ := h
    rw [List.all_eq_true] at hall
    by_cases hc : c = '.'
    · subst hc
      have htnodot : ∀ x ∈ t, x ≠ '.' := by
        intro x hx hxdot
        subst hxdot
        rw [List.filter_cons] at hfil
        simp only [decide_eq_true_eq, if_pos rfl] at hfil
        have h1 : ('.' :: t.filter (fun x => decide (x = '.'))).length ≤ 1 := by
          simpa using hfil
        have h2 : '.' ∈ t.filter (fun x => decide (x = '.')) := by
          rw [List.mem_filter]
          exact ⟨hx, by simp⟩
        have h3 : 1 ≤ (t.filter (fun x => decide (x = '.'))).length :=
          List.length_pos_of_mem h2
        simp only [List.length_cons] at h1
        omega
      refine Or.inr ⟨[], t, rfl, fun x hx => absurd hx (List.not_mem_nil x), ?_⟩
      intro x hx
      have := hall x (List.mem_cons_of_mem _ hx)
      rcases Bool.or_eq_true _ _ |>.mp this with h1 | h2
      · exact h1
      · exact absurd (by simpa using h2) (htnodot x hx)
    · have hcd : isDecDigit c = true := by
        have := hall c (List.mem_cons_self c t)
        rcases Bool.or_eq_true _ _ |>.mp this with h1 | h2
        · exact h1
        · exact absurd (by simpa using h2) hc
      have hwf : wellFormedAmount t = true := by
        rw [wellFormedAmount, Bool.and_eq_true]
        constructor
        · rw [List.filter_cons] at hfil
          simp only [hc, decide_eq_true_eq, if_neg, decide_eq_false_iff_not,
            not_false_iff] at hfil
          simpa using hfil
        · rw [List.all_eq_true]
          intro x hx
          exact hall x (List.mem_cons_of_mem _ hx)
      rcases ih hwf with h1 | ⟨w, f, heq, hw, hf⟩
      · exact Or.inl (by
          intro x hx
          rcases List.mem_cons.mp hx with rfl | hxt
          · exact hcd
          · exact h1 x hxt)
      · refine Or.inr ⟨c :: w, f, by rw [heq]; rfl, ?_, hf⟩
        intro x hx
        rcases List.mem_cons.mp hx with rfl | hxw
        · exact hcd
        · exact hw x hxw

theorem decimalVal_nodot (w : List Char) (hw : ∀ c ∈ w, isDecDigit c = true) :
    decimalVal w = digitsToNat w := by
  rw [decimalVal, wholePart_nodot w hw, fractionPart_nodot w hw]
  norm_num [digitsToNat]

theorem decimalVal_split (w f : List Char) (hw : ∀ c ∈ w, isDecDigit c = true)
    (hf : ∀ c ∈ f, isDecDigit c = true) :
    decimalVal (w ++ '.' :: f) =
      digitsToNat w + (digitsToNat f : ℚ) / 10 ^ f.length := by
  rw [decimalVal, wholePart_split w f hw, fractionPart_split w f hw hf]

/-- C8: for every well-formed decimal amount string and every decimal
precision d, converting to atomic units with `parseTokenAmount` and back
with `formatTokenAmount` yields a string representing the same numeric
value as the original string truncated to d fractional digits. -/
theorem c8_roundtrip (a : List Char) (d : ℕ) (h : wellFormedAmount a = true) :
    decimalVal (formatTokenAmount (parseTokenAmount a d) d) =
      decimalVal (truncAmount a d) := by
  rcases wellFormed_decompose a h with hall | ⟨w, f, rfl, hw, hf⟩
  · rw [parseTokenAmount_nodot a d hall, decimalVal_formatTokenAmount]
    have htr : truncAmount a d = a := by
      show wholePart a ++ (if ((fractionPart a).take d).length = 0 then []
        else '.' :: (fractionPart a).take d) = a
      rw [fractionPart_nodot a hall, wholePart_nodot a hall]
      simp
    rw [htr, decimalVal_nodot a hall]
    push_cast
    field_simp
  · rw [parseTokenAmount_split w f d hw hf, decimalVal_formatTokenAmount]
    by_cases hlen : f.length ≤ d
    · rw [padTake_of_le f d hlen, digitsToNat_append, digitsToNat_replicate_zero,
        List.length_replicate, Nat.add_zero]
      have htake : f.take d = f := List.take_of_length_le hlen
      by_cases hf0 : f.length = 0
      · have hfe : f = [] := List.length_eq_zero.mp hf0
        subst hfe
        have htr : truncAmount (w ++ '.' :: []) d = w := by
          show wholePart (w ++ '.' :: []) ++
            (if ((fractionPart (w ++ '.' :: [])).take d).length = 0 then []
             else '.' :: (fractionPart (w ++ '.' :: [])).take d) = w
          rw [fractionPart_split w [] hw hf, wholePart_split w [] hw]
          simp
        rw [htr, decimalVal_nodot w hw]
        have h0 : digitsToNat ([] : List Char) = 0 := rfl
        rw [h0]
        push_cast
        field_simp
      · have hfd : ¬ (f.take d).length = 0 := by rw [htake]; exact hf0
        have htr : truncAmount (w ++ '.' :: f) d = w ++ '.' :: f := by
          show wholePart (w ++ '.' :: f) ++
            (if ((fractionPart (w ++ '.' :: f)).take d).length = 0 then []
             else '.' :: (fractionPart (w ++ '.' :: f)).take d) = w ++ '.' :: f
          rw [fractionPart_split w f hw hf, wholePart_split w f hw, if_neg hfd, htake]
        rw [htr, decimalVal_split w f hw hf]
        have hpow : (10 : ℚ) ^ d = 10 ^ f.length * 10 ^ (d - f.length) := by
          rw [← pow_add]
          congr 1
          omega
        push_cast
        rw [hpow]
        have h1 : (10 : ℚ) ^ f.length ≠ 0 := by positivity
        have h2 : (10 : ℚ) ^ (d - f.length) ≠ 0 := by positivity
        field_simp
        ring
    · push_neg at hlen
      rw [padTake_of_ge f d (by omega)]
      by_cases hd0 : d = 0
      · subst hd0
        have htr : truncAmount (w ++ '.' :: f) 0 = w := by
          show wholePart (w ++ '.' :: f) ++
            (if ((fractionPart (w ++ '.' :: f)).take 0).length = 0 then []
             else '.' :: (fractionPart (w ++ '.' :: f)).take 0) = w
          rw [fractionPart_split w f hw hf, wholePart_split w f hw]
          simp
        rw [htr, decimalVal_nodot w hw, List.take_zero]
        have h0 : digitsToNat ([] : List Char) = 0 := rfl
        rw [h0]
        push_cast
        norm_num
      · have hfd : ¬ (f.take d).length = 0 := by
          rw [List.length_take]
          omega
        have htr : truncAmount (w ++ '.' :: f) d = w ++ '.' :: f.take d := by
          show wholePart (w ++ '.' :: f) ++
            (if ((fractionPart (w ++ '.' :: f)).take d).length = 0 then []
             else '.' :: (fractionPart (w ++ '.' :: f)).take d) = w ++ '.' :: f.take d
          rw [fractionPart_split w f hw hf, wholePart_split w f hw, if_neg hfd]
        rw [htr, decimalVal_split w (f.take d) hw
          (fun c hc => hf c (List.take_subset d f hc))]
        rw [List.length_take]
        have hmin : min d f.length = d := by omega
        rw [hmin]
        push_cast
        have h1 : (10 : ℚ) ^ d ≠ 0 := by positivity
        field_simp

/-- C10: `parseTokenAmount` never rounds up: a fraction longer than d
digits has its excess digits discarded (truncation toward zero), a
shorter fraction is right-padded with zeros, a string with no decimal
point is scaled by exactly 10^d, and the result never exceeds the
represented value scaled by 10^d. -/
theorem c10_parse_truncates (w f : List Char) (d : ℕ)
    (hw : ∀ c ∈ w, isDecDigit c = true) (hf : ∀ c ∈ f, isDecDigit c = true) :
    (d ≤ f.length →
      parseTokenAmount (w ++ '.' :: f) d = digitsToNat (w ++ f.take d))
    ∧ (f.length ≤ d →
      parseTokenAmount (w ++ '.' :: f) d =
        digitsToNat (w ++ (f ++ List.replicate (d - f.length) '0')))
    ∧ parseTokenAmount w d = digitsToNat w * 10 ^ d
    ∧ (parseTokenAmount (w ++ '.' :: f) d : ℚ) ≤ decimalVal (w ++ '.' :: f) * 10 ^ d := by
  refine ⟨?_, ?_, parseTokenAmount_nodot w d hw, ?_⟩
  · intro hd
    rw [parseTokenAmount_split w f d hw hf, padTake_of_ge f d hd,
      digitsToNat_append w (f.take d), List.length_take]
    have hmin : min d f.length = d := by omega
    rw [hmin]
  · intro hd
    rw [parseTokenAmount_split w f d hw hf, padTake_of_le f d hd,
      digitsToNat_append w (f ++ List.replicate (d - f.length) '0'),
      List.length_append, List.length_replicate]
    have hlen : f.length + (d - f.length) = d := by omega
    rw [hlen]
  · rw [parseTokenAmount_split w f d hw hf, decimalVal_split w f hw hf]
    by_cases hlen : f.length ≤ d
    · rw [padTake_of_le f d hlen, digitsToNat_append, digitsToNat_replicate_zero,
        List.length_replicate, Nat.add_zero]
      have hpow : (10 : ℚ) ^ d = 10 ^ f.length * 10 ^ (d - f.length) := by
        rw [← pow_add]
        congr 1
        omega
      push_cast
      rw [hpow]
      have h1 : (10 : ℚ) ^ f.length ≠ 0 := by positivity
      apply le_of_eq
      field_simp
      ring
    · push_neg at hlen
      rw [padTake_of_ge f d (by omega)]
      have hfsplit : digitsToNat f =
          digitsToNat (f.take d) * 10 ^ (f.length - d) + digitsToNat (f.drop d) := by
        conv_lhs => rw [← List.take_append_drop d f]
        rw [digitsToNat_append, List.length_drop]
      have hpow : (10 : ℚ) ^ f.length = 10 ^ d * 10 ^ (f.length - d) := by
        rw [← pow_add]
        congr 1
        omega
      push_cast [hfsplit]
      rw [hpow]
      have h1 : (10 : ℚ) ^ d ≠ 0 := by positivity
      have h2 : (10 : ℚ) ^ (f.length - d) ≠ 0 := by positivity
      have h3 : (0 : ℚ) ≤ (digitsToNat (f.drop d) : ℚ) / 10 ^ (f.length - d) := by
        positivity
      have key : ((digitsToNat (f.take d) : ℚ) * 10 ^ (f.length - d) +
          digitsToNat (f.drop d)) / (10 ^ d * 10 ^ (f.length - d)) * 10 ^ d =
          (digitsToNat (f.take d) : ℚ) + (digitsToNat (f.drop d) : ℚ) / 10 ^ (f.length - d) := by
        field_simp
        ring
      rw [add_mul, key]
      have : (digitsToNat w : ℚ) * 10 ^ d + digitsToNat (f.take d) ≤
          (digitsToNat w : ℚ) * 10 ^ d +
            ((digitsToNat (f.take d) : ℚ) + (digitsToNat (f.drop d) : ℚ) / 10 ^ (f.length - d)) := by
        have := h3
        linarith
      exact this

/-- C8 witness: the round-trip at the concrete amount 1.2345678 with
six decimals. -/
theorem c8_witness :
    wellFormedAmount "1.2345678".data = true
    ∧ decimalVal (formatTokenAmount (parseTokenAmount "1.2345678".data 6) 6) =
        decimalVal (truncAmount "1.2345678".data 6) :=
  ⟨by decide, c8_roundtrip "1.2345678".data 6 (by decide)⟩

/-- C10 witness: truncation, padding and scaling at the concrete
string 12.345. -/
theorem c10_witness :
    parseTokenAmount ['1', '2', '.', '3', '4', '5'] 2 = 1234
    ∧ parseTokenAmount ['1', '2', '.', '3', '4', '5'] 6 = 12345000
    ∧ parseTokenAmount ['1', '2'] 6 = 12000000 := by
  have h2 := c10_parse_truncates ['1', '2'] ['3', '4', '5'] 2 (by decide) (by decide)
  have h6 := c10_parse_truncates ['1', '2'] ['3', '4', '5'] 6 (by decide) (by decide)
  exact ⟨h2.1 (by decide), h6.2.1 (by decide), h6.2.2.1⟩

/-- The code's error-message chain coincides with the amended rule. -/
theorem apiErrorMessage_eq_amended (r : ApiResp) (d : String) :
    apiErrorMessage r d = amendedFailureMessage r d := by
  unfold apiErrorMessage amendedFailureMessage jsOrStr
  cases jsTruthy r.errorMessage <;> cases jsTruthy r.message <;>
    cases jsTruthy r.dataReason <;> cases jsTruthy r.errorHint <;> rfl

/-- When the wallet sits on chain 8453 the pre-flight check never
fires, whatever the parameters. -/
theorem preflightMismatch_none_of_aligned (ctx : EvmCtx) (q : PaymentParams)
    (hchain : ctx.currentChainId = 8453) : preflightMismatch ctx q = none := by
  rw [preflightMismatch]
  rcases jsTruthy q.sourceNetwork with _ | s
  · rfl
  · simp [hchain]

/-- `jsOrStr` with a nonempty default never returns the empty string. -/
theorem jsOrStr_ne_empty (a : Option String) (b : String) (hb : b ≠ "") :
    jsOrStr a b ≠ "" := by
  rw [jsOrStr]
  rcases a with _ | s
  · simpa [jsTruthy]
  · rw [jsTruthy]
    by_cases hs : s = "" <;> simp [hs, hb]

/-- Cross-chain flow of `useEvmPay.verify`: the full event trace, with
the bridge request strictly before the signature prompt, the deposit
address as the EIP-712 `to`, and the order id in the verify body. -/
theorem verifyEvm_bridge_flow (ctx : EvmCtx) (st : EvmHookState) (params : PaymentParams)
    (k sn dn sig : String) (bd : BridgeData) (r : ApiResp)
    (hkey : ctx.apiKey = some k) (hk' : k ≠ "")
    (hsn : jsOrStr params.sourceNetwork (jsOrStr params.network (jsOrStr ctx.network "base")) = sn)
    (hdn : jsOrStr params.destinationNetwork (jsOrStr params.network (jsOrStr ctx.network "base")) = dn)
    (hcross : sn ≠ dn)
    (hbridge : prepareBridgeResp ctx.bridgeResp = .ok bd)
    (horder : bd.orderId ≠ "")
    (hconn : ctx.isConnected = true) (haddr : ctx.address ≠ none)
    (hchain : ctx.currentChainId = 8453)
    (hsign : ctx.signResp = .ok sig)
    (hverify : verifyPaymentResp ctx.verifyResp = .ok r) :
    (let auth : EvmAuthorization :=
      { fromAddr := ctx.address.getD "", toAddr := bd.depositAddress
        value := validateAmount params.amount (params.token.getD ctx.token).decimals
        validAfter := 0, validBefore := ctx.now + 3600, nonce := ctx.nonce }
    let hdr : X402HeaderEvm :=
      { x402Version := 1, scheme := "exact", network := sn
        payload := { signature := sig, authorization := auth } }
    let body : VerifyBody X402HeaderEvm :=
      { paymentHeader := hdr, sourceNetwork := sn, destinationNetwork := dn
        expectedAmount := params.amount
        expectedToken := jsOrStr (params.token.map (·.symbol)) ctx.token.symbol
        recipientAddress := bd.depositAddress
        finalRecipient := none
        priority := jsOrStr params.priority "balanced"
        bridgeOrderId := some bd.orderId
        expectedFees := some
          { processingFee := calcProcessingFee ctx.feeConfig true dn ctx.parsedAmount
            totalFees := calcProcessingFee ctx.feeConfig true dn ctx.parsedAmount }
        needsATACreation := some false }
    (verifyEvm ctx st params).2.2 =
      [EvmEvent.cbVerificationStart,
       EvmEvent.bridgeReq sn dn params.amount params.toAddr,
       EvmEvent.cbSigningStart,
       EvmEvent.signReq (jsOrNat params.chainId ctx.chainId)
         (params.token.getD ctx.token).address auth,
       EvmEvent.cbSigningComplete,
       EvmEvent.verifyReq body,
       EvmEvent.cbVerificationComplete]
    ∧ auth.toAddr = bd.depositAddress
    ∧ body.bridgeOrderId = some bd.orderId
    ∧ (verifyEvm ctx st params).2.1.paymentState.x402Header = some hdr) := by
  have hmis := preflightMismatch_none_of_aligned ctx
    { params with toAddr := bd.depositAddress } hchain
  refine ⟨?_, rfl, rfl, ?_⟩
  · simp only [verifyEvm, signPaymentEvm, hkey, jsTruthy, hk', if_neg, hsn, hdn]
    simp [hcross, hbridge, hconn, haddr, hmis, hsign, hverify, jsTruthy, horder, hsn, hdn,
      getValidityTimestamps]
  · simp only [verifyEvm, signPaymentEvm, hkey, jsTruthy, hk', if_neg, hsn, hdn]
    simp [hcross, hbridge, hconn, haddr, hmis, hsign, hverify, jsTruthy, horder, hsn, hdn,
      getValidityTimestamps]

/-- Cross-chain flow of `useSolanaPay.verify`: the full event trace,
with the bridge request strictly before the signature prompt and the
deposit address as the transfer destination. -/
theorem verifySol_bridge_flow (ctx : SolCtx) (st : SolHookState) (params : PaymentParams)
    (k sn dn name key : String) (bd : BridgeData) (r : ApiResp)
    (hkey : ctx.apiKey = some k) (hk' : k ≠ "")
    (hsn : jsOrStr params.sourceNetwork (jsOrStr params.network (jsOrStr ctx.network "solana")) = sn)
    (hdn : jsOrStr params.destinationNetwork (jsOrStr params.network (jsOrStr ctx.network "solana")) = dn)
    (hcross : sn ≠ dn)
    (hbridge : prepareBridgeResp ctx.bridgeResp = .ok bd)
    (horder : bd.orderId ≠ "")
    (hconn : ctx.isConnected = true) (haddr : ctx.address ≠ none)
    (hsrcAta : ctx.sourceAtaExists = true)
    (hrank : getRankedFacilitators ctx.facilResp = .ok name)
    (hfee : getSolanaFeePayer name = .ok key)
    (hsign : ctx.signResp = .ok ())
    (hverify : verifyPaymentResp ctx.verifyResp = .ok r) :
    (let address := ctx.address.getD ""
    let useToken := params.token.getD
      (if containsSeq "devnet".data sn.data then ctx.usdcSolanaDevnet else ctx.usdcSolana)
    let programId := if ctx.mintIsToken2022 then TOKEN_2022_PROGRAM_ID else TOKEN_PROGRAM_ID
    let sourceAta := ctx.ataOf useToken.address address programId
    let destinationAta := ctx.ataOf useToken.address bd.depositAddress programId
    let tx : SolTx :=
      { feePayer := key, recentBlockhash := ctx.blockhash
        instructions :=
          [SolInstr.computeUnitLimit 40000, SolInstr.computeUnitPrice 1] ++
          (if ctx.destAtaExists then []
           else [SolInstr.createAta address destinationAta bd.depositAddress useToken.address]) ++
          [SolInstr.transferChecked sourceAta useToken.address destinationAta address
            (validateAmount params.amount useToken.decimals) ctx.mintDecimals] }
    let hdr : SolHeader :=
      { x402Version := 1, scheme := "exact", network := sn
        payload := { transaction := tx, destinationNetwork := some dn
                     destinationAddress := some bd.depositAddress } }
    let body : VerifyBody SolHeader :=
      { paymentHeader := hdr, sourceNetwork := sn, destinationNetwork := dn
        expectedAmount := params.amount
        expectedToken := jsOrStr (params.token.map (·.symbol)) ctx.token.symbol
        recipientAddress := bd.depositAddress
        finalRecipient := none
        priority := jsOrStr params.priority "balanced"
        bridgeOrderId := some bd.orderId
        expectedFees := none
        needsATACreation := none }
    (verifySol ctx st params).2.2 =
      [SolEvent.cbVerificationStart,
       SolEvent.bridgeReq sn dn params.amount params.toAddr,
       SolEvent.cbSigningStart,
       SolEvent.facilReq "solana" (jsOrStr params.priority "balanced"),
       SolEvent.signReq tx,
       SolEvent.cbSigningComplete,
       SolEvent.verifyReq body,
       SolEvent.cbVerificationComplete]
    ∧ (verifySol ctx st params).2.1.paymentState.x402Header = some hdr) := by
  have hsn' : sn ≠ "" := hsn ▸ jsOrStr_ne_empty _ _ (by
    exact jsOrStr_ne_empty _ _ (jsOrStr_ne_empty _ _ (by decide)))
  have hdn' : dn ≠ "" := hdn ▸ jsOrStr_ne_empty _ _ (by
    exact jsOrStr_ne_empty _ _ (jsOrStr_ne_empty _ _ (by decide)))
  have hbne : (sn != dn) = true := by simp [hcross]
  have hself : jsOrStr (some sn) "solana" = sn := by simp [jsOrStr, jsTruthy, hsn']
  constructor
  · simp only [verifySol, signSolanaPayment, hkey, jsTruthy, hk', hsn, hdn]
    simp [hcross, hbridge, hconn, haddr, hsrcAta, hrank, hfee, hsign, hverify,
      jsTruthy, horder, hsn', hdn', hbne, hsn, hdn, hself]
  · simp only [verifySol, signSolanaPayment, hkey, jsTruthy, hk', hsn, hdn]
    simp [hcross, hbridge, hconn, haddr, hsrcAta, hrank, hfee, hsign, hverify,
      jsTruthy, horder, hsn', hdn', hbne, hsn, hdn, hself]

/-! ## Claim theorems -/

/-- C1: every settle request issued by `settle()` or by the
`settleInternal` that `pay()`'s auto-settle phase calls carries no
`paymentId` at all — the call sites omit the field the
`SettlePaymentParams` interface declares REQUIRED, and the `paymentId`
the backend returns from verify is never captured — contradicting the
claim that settlement carries the exact verify-issued id and that an
absent id fails before the network call. -/
theorem c1_settle_request_has_no_paymentId :
    (∀ (ctx : EvmCtx) (st : EvmHookState) (h : X402HeaderEvm) (sn dn p : String)
      (b : SettleBody X402HeaderEvm),
      EvmEvent.settleReq b ∈ (settleInternalEvm ctx st h sn dn p).2.2 → b.paymentId = none)
    ∧ (∀ (ctx : EvmCtx) (st : EvmHookState) (b : SettleBody X402HeaderEvm),
      EvmEvent.settleReq b ∈ (settleEvm ctx st).2.2 → b.paymentId = none)
    ∧ (∀ (ctx : SolCtx) (st : SolHookState) (h : SolHeader) (sn dn p : String)
      (b : SettleBody SolHeader),
      SolEvent.settleReq b ∈ (settleInternalSol ctx st h sn dn p).2.2 → b.paymentId = none)
    ∧ (∀ (ctx : SolCtx) (st : SolHookState) (b : SettleBody SolHeader),
      SolEvent.settleReq b ∈ (settleSol ctx st).2.2 → b.paymentId = none) := by
  have evm : ∀ (ctx : EvmCtx) (st : EvmHookState) (h : X402HeaderEvm) (sn dn p : String)
      (b : SettleBody X402HeaderEvm),
      EvmEvent.settleReq b ∈ (settleInternalEvm ctx st h sn dn p).2.2 → b.paymentId = none := by
    intro ctx st h sn dn p b hmem
    rcases hk : jsTruthy ctx.apiKey with _ | k
    · simp [settleInternalEvm, hk] at hmem
    · rcases hs : settlePaymentResp ctx.settleResp with e | r <;>
        · simp [settleInternalEvm, hk, hs] at hmem
          rw [hmem]
  have sol : ∀ (ctx : SolCtx) (st : SolHookState) (h : SolHeader) (sn dn p : String)
      (b : SettleBody SolHeader),
      SolEvent.settleReq b ∈ (settleInternalSol ctx st h sn dn p).2.2 → b.paymentId = none := by
    intro ctx st h sn dn p b hmem
    rcases hk : jsTruthy ctx.apiKey with _ | k
    · simp [settleInternalSol, hk] at hmem
    · rcases hs : settlePaymentResp ctx.settleResp with e | r <;>
        · simp [settleInternalSol, hk, hs] at hmem
          rw [hmem]
  refine ⟨evm, ?_, sol, ?_⟩
  · intro ctx st b hmem
    rcases hk : jsTruthy ctx.apiKey with _ | k
    · simp [settleEvm, hk] at hmem
    · rcases hh : st.paymentState.x402Header with _ | h
      · simp [settleEvm, hk, hh] at hmem
      · simp only [settleEvm, hk, hh] at hmem
        exact evm ctx st h _ _ _ b hmem
  · intro ctx st b hmem
    rcases hk : jsTruthy ctx.apiKey with _ | k
    · simp [settleSol, hk] at hmem
    · rcases hh : st.paymentState.x402Header with _ | h
      · simp [settleSol, hk, hh] at hmem
      · simp only [settleSol, hk, hh] at hmem
        exact sol ctx st h _ _ _ b hmem

/-- C1 witness: on a held payment whose verify response issued
`"pay_123"`, the settle request the hook actually emits is `c1Body`,
and its `paymentId` is `none`. -/
theorem c1_witness :
    (EvmEvent.settleReq c1Body ∈ (settleEvm c1Ctx c1St).2.2)
    ∧ c1Ctx.verifyResp.dataPaymentId = some "pay_123"
    ∧ c1Body.paymentId = none :=
  ⟨by decide, by decide,
   c1_settle_request_has_no_paymentId.2.1 c1Ctx c1St c1Body (by decide)⟩

/-- C2 counterexample: a `verify()` that signed successfully but was
rejected by the backend leaves the header persisted (it is stored
before the verify call), so a subsequent `settle()` — with no successful
verify in the whole history — succeeds and issues a settle request
instead of failing with the `NoVerifiedPayment` message. -/
theorem c2_counterexample :
    ((verifyEvm c2Ctx EvmHookState.initial c2Params).1.success = false)
    ∧ ((settleEvm c2Ctx (verifyEvm c2Ctx EvmHookState.initial c2Params).2.1).1.success = true)
    ∧ ((settleEvm c2Ctx (verifyEvm c2Ctx EvmHookState.initial c2Params).2.1).1.error ≠
        some "No payment to settle. Call verify() first.")
    ∧ ((settleEvm c2Ctx (verifyEvm c2Ctx EvmHookState.initial c2Params).2.1).2.2.any
        isSettleReqEvm = true) := by
  refine ⟨by decide, by decide, by decide, by decide⟩

/-- C2 amended: on an orchestrator with a configured API key whose held
payment state is empty — as on a fresh instance or right after
`reset()` — `settle()` fails with `"No payment to settle. Call verify()
first."` and issues zero events, in both hooks. -/
theorem c2_settle_without_held_payment :
    (∀ (ctx : EvmCtx) (st : EvmHookState) (k : String), ctx.apiKey = some k → k ≠ "" →
      st.paymentState.x402Header = none →
      (settleEvm ctx st).1 =
        { success := false, txHash := none
          error := some "No payment to settle. Call verify() first."
          verified := none, settled := none }
      ∧ (settleEvm ctx st).2.2 = [])
    ∧ (∀ (ctx : SolCtx) (st : SolHookState) (k : String), ctx.apiKey = some k → k ≠ "" →
      st.paymentState.x402Header = none →
      (settleSol ctx st).1 =
        { success := false, txHash := none
          error := some "No payment to settle. Call verify() first."
          verified := none, settled := none }
      ∧ (settleSol ctx st).2.2 = [])
    ∧ EvmHookState.initial.paymentState.x402Header = none
    ∧ SolHookState.initial.paymentState.x402Header = none
    ∧ (∀ st, (resetEvm st).paymentState.x402Header = none)
    ∧ (∀ st, (resetSol st).paymentState.x402Header = none) := by
  refine ⟨?_, ?_, rfl, rfl, fun _ => rfl, fun _ => rfl⟩
  · intro ctx st k hk hk' hh
    simp [settleEvm, hk, jsTruthy, hk', hh]
  · intro ctx st k hk hk' hh
    simp [settleSol, hk, jsTruthy, hk', hh]

/-- C2 witness: the amended statement evaluated on a concrete keyed
Solana hook in its initial state. -/
theorem c2_settle_without_held_payment_witness :
    (settleSol c2wCtx SolHookState.initial).1 =
      { success := false, txHash := none
        error := some "No payment to settle. Call verify() first."
        verified := none, settled := none }
    ∧ (settleSol c2wCtx SolHookState.initial).2.2 = [] :=
  c2_settle_without_held_payment.2.1 c2wCtx SolHookState.initial "k" rfl (by decide) rfl

/-- C3 counterexample: after a successful verify and a successful
settle, the held verified-payment state is NOT cleared, and a second
`settle()` on the same instance succeeds and issues another settle
request instead of failing with the `NoVerifiedPayment` error. -/
theorem c3_counterexample :
    ((verifyEvm c3Ctx EvmHookState.initial c2Params).1.success = true)
    ∧ ((settleEvm c3Ctx (verifyEvm c3Ctx EvmHookState.initial c2Params).2.1).1.success = true)
    ∧ ((settleEvm c3Ctx
        (verifyEvm c3Ctx EvmHookState.initial c2Params).2.1).2.1.paymentState.x402Header ≠ none)
    ∧ ((settleEvm c3Ctx
        (settleEvm c3Ctx (verifyEvm c3Ctx EvmHookState.initial c2Params).2.1).2.1).1.success = true)
    ∧ ((settleEvm c3Ctx
        (settleEvm c3Ctx (verifyEvm c3Ctx EvmHookState.initial c2Params).2.1).2.1).2.2.any
          isSettleReqEvm = true) := by
  refine ⟨by decide, by decide, by decide, by decide, by decide⟩

/-- C3 amended: on a successful settle the orchestrator captures the
returned transaction hash into `lastTxHash`, fires the
settlement-complete hook and the success callback with that hash — but
the held payment state is left exactly as it was, in both hooks. -/
theorem c3_settle_success_behavior :
    (∀ (ctx : EvmCtx) (st : EvmHookState) (h : X402HeaderEvm) (sn dn p k : String)
      (r : ApiResp),
      ctx.apiKey = some k → k ≠ "" → settlePaymentResp ctx.settleResp = .ok r →
      (settleInternalEvm ctx st h sn dn p).1 =
        { success := true, txHash := some (jsOrStr r.dataTxHash ""), error := none
          verified := none, settled := some true }
      ∧ (settleInternalEvm ctx st h sn dn p).2.1 =
        { paymentState := st.paymentState, lastTxHash := some (jsOrStr r.dataTxHash "")
          errorMsg := none }
      ∧ (settleInternalEvm ctx st h sn dn p).2.2 =
        [EvmEvent.cbSettlementStart,
         EvmEvent.settleReq { paymentId := none, paymentHeader := h, sourceNetwork := sn
                              destinationNetwork := dn, priority := p },
         EvmEvent.cbSettlementComplete, EvmEvent.cbSuccess (jsOrStr r.dataTxHash "")])
    ∧ (∀ (ctx : SolCtx) (st : SolHookState) (h : SolHeader) (sn dn p k : String)
      (r : ApiResp),
      ctx.apiKey = some k → k ≠ "" → settlePaymentResp ctx.settleResp = .ok r →
      (settleInternalSol ctx st h sn dn p).1 =
        { success := true, txHash := some (jsOrStr r.dataTxHash ""), error := none
          verified := none, settled := some true }
      ∧ (settleInternalSol ctx st h sn dn p).2.1 =
        { paymentState := st.paymentState, lastTxHash := some (jsOrStr r.dataTxHash "")
          errorMsg := none }
      ∧ (settleInternalSol ctx st h sn dn p).2.2 =
        [SolEvent.cbSettlementStart,
         SolEvent.settleReq { paymentId := none, paymentHeader := h, sourceNetwork := sn
                              destinationNetwork := dn, priority := p },
         SolEvent.cbSettlementComplete, SolEvent.cbSuccess (jsOrStr r.dataTxHash "")]) := by
  constructor
  · intro ctx st h sn dn p k r hk hk' hr
    simp [settleInternalEvm, hk, jsTruthy, hk', hr]
  · intro ctx st h sn dn p k r hk hk' hr
    simp [settleInternalSol, hk, jsTruthy, hk', hr]

/-- C3 witness: the amended statement evaluated at a concrete
successful settlement. -/
theorem c3_settle_success_behavior_witness :
    (settleInternalEvm c3Ctx EvmHookState.initial c3wHeader "base" "base" "balanced").1 =
      { success := true, txHash := some "0xHASH", error := none
        verified := none, settled := some true } := by
  have := (c3_settle_success_behavior.1 c3Ctx EvmHookState.initial c3wHeader "base" "base"
    "balanced" "k" respSettleOk rfl (by decide) (by decide)).1
  simpa using this

/-- C4: for a cross-network intent both hooks call the bridge-prepare
endpoint strictly before the wallet signature prompt, the deposit
address returned by the bridge — not the caller's recipient — is the
transfer destination inside the signing envelope (the EVM
authorization's `to`; the owner of the destination token account of the
Solana transfer instruction), and the returned order id is attached as
`bridgeOrderId` to the subsequent verify request. -/
theorem c4_cross_chain_uses_deposit_address :
    (∀ (ctx : EvmCtx) (st : EvmHookState) (params : PaymentParams)
      (k sn dn sig : String) (bd : BridgeData) (r : ApiResp),
      ctx.apiKey = some k → k ≠ "" →
      jsOrStr params.sourceNetwork (jsOrStr params.network (jsOrStr ctx.network "base")) = sn →
      jsOrStr params.destinationNetwork (jsOrStr params.network (jsOrStr ctx.network "base")) = dn →
      sn ≠ dn →
      prepareBridgeResp ctx.bridgeResp = .ok bd →
      bd.orderId ≠ "" →
      ctx.isConnected = true → ctx.address ≠ none →
      ctx.currentChainId = 8453 →
      ctx.signResp = .ok sig →
      verifyPaymentResp ctx.verifyResp = .ok r →
      (let auth : EvmAuthorization :=
        { fromAddr := ctx.address.getD "", toAddr := bd.depositAddress
          value := validateAmount params.amount (params.token.getD ctx.token).decimals
          validAfter := 0, validBefore := ctx.now + 3600, nonce := ctx.nonce }
      let hdr : X402HeaderEvm :=
        { x402Version := 1, scheme := "exact", network := sn
          payload := { signature := sig, authorization := auth } }
      let body : VerifyBody X402HeaderEvm :=
        { paymentHeader := hdr, sourceNetwork := sn, destinationNetwork := dn
          expectedAmount := params.amount
          expectedToken := jsOrStr (params.token.map (·.symbol)) ctx.token.symbol
          recipientAddress := bd.depositAddress
          finalRecipient := none
          priority := jsOrStr params.priority "balanced"
          bridgeOrderId := some bd.orderId
          expectedFees := some
            { processingFee := calcProcessingFee ctx.feeConfig true dn ctx.parsedAmount
              totalFees := calcProcessingFee ctx.feeConfig true dn ctx.parsedAmount }
          needsATACreation := some false }
      (verifyEvm ctx st params).2.2 =
        [EvmEvent.cbVerificationStart,
         EvmEvent.bridgeReq sn dn params.amount params.toAddr,
         EvmEvent.cbSigningStart,
         EvmEvent.signReq (jsOrNat params.chainId ctx.chainId)
           (params.token.getD ctx.token).address auth,
         EvmEvent.cbSigningComplete,
         EvmEvent.verifyReq body,
         EvmEvent.cbVerificationComplete]
      ∧ auth.toAddr = bd.depositAddress
      ∧ body.bridgeOrderId = some bd.orderId
      ∧ (verifyEvm ctx st params).2.1.paymentState.x402Header = some hdr))
    ∧ (∀ (ctx : SolCtx) (st : SolHookState) (params : PaymentParams)
      (k sn dn name key : String) (bd : BridgeData) (r : ApiResp),
      ctx.apiKey = some k → k ≠ "" →
      jsOrStr params.sourceNetwork (jsOrStr params.network (jsOrStr ctx.network "solana")) = sn →
      jsOrStr params.destinationNetwork (jsOrStr params.network (jsOrStr ctx.network "solana")) = dn →
      sn ≠ dn →
      prepareBridgeResp ctx.bridgeResp = .ok bd →
      bd.orderId ≠ "" →
      ctx.isConnected = true → ctx.address ≠ none →
      ctx.sourceAtaExists = true →
      getRankedFacilitators ctx.facilResp = .ok name →
      getSolanaFeePayer name = .ok key →
      ctx.signResp = .ok () →
      verifyPaymentResp ctx.verifyResp = .ok r →
      (let address := ctx.address.getD ""
      let useToken := params.token.getD
        (if containsSeq "devnet".data sn.data then ctx.usdcSolanaDevnet else ctx.usdcSolana)
      let programId := if ctx.mintIsToken2022 then TOKEN_2022_PROGRAM_ID else TOKEN_PROGRAM_ID
      let sourceAta := ctx.ataOf useToken.address address programId
      let destinationAta := ctx.ataOf useToken.address bd.depositAddress programId
      let tx : SolTx :=
        { feePayer := key, recentBlockhash := ctx.blockhash
          instructions :=
            [SolInstr.computeUnitLimit 40000, SolInstr.computeUnitPrice 1] ++
            (if ctx.destAtaExists then []
             else [SolInstr.createAta address destinationAta bd.depositAddress useToken.address]) ++
            [SolInstr.transferChecked sourceAta useToken.address destinationAta address
              (validateAmount params.amount useToken.decimals) ctx.mintDecimals] }
      let hdr : SolHeader :=
        { x402Version := 1, scheme := "exact", network := sn
          payload := { transaction := tx, destinationNetwork := some dn
                       destinationAddress := some bd.depositAddress } }
      let body : VerifyBody SolHeader :=
        { paymentHeader := hdr, sourceNetwork := sn, destinationNetwork := dn
          expectedAmount := params.amount
          expectedToken := jsOrStr (params.token.map (·.symbol)) ctx.token.symbol
          recipientAddress := bd.depositAddress
          finalRecipient := none
          priority := jsOrStr params.priority "balanced"
          bridgeOrderId := some bd.orderId
          expectedFees := none
          needsATACreation := none }
      (verifySol ctx st params).2.2 =
        [SolEvent.cbVerificationStart,
         SolEvent.bridgeReq sn dn params.amount params.toAddr,
         SolEvent.cbSigningStart,
         SolEvent.facilReq "solana" (jsOrStr params.priority "balanced"),
         SolEvent.signReq tx,
         SolEvent.cbSigningComplete,
         SolEvent.verifyReq body,
         SolEvent.cbVerificationComplete]
      ∧ (verifySol ctx st params).2.1.paymentState.x402Header = some hdr)) := by
  constructor
  · intro ctx st params k sn dn sig bd r h1 h2 h3 h4 h5 h6 h7 h8 h9 h10 h11 h12
    exact verifyEvm_bridge_flow ctx st params k sn dn sig bd r h1 h2 h3 h4 h5 h6 h7 h8 h9
      h10 h11 h12
  · intro ctx st params k sn dn name key bd r h1 h2 h3 h4 h5 h6 h7 h8 h9 h10 h11 h12 h13 h14
    exact verifySol_bridge_flow ctx st params k sn dn name key bd r h1 h2 h3 h4 h5 h6 h7 h8
      h9 h10 h11 h12 h13 h14

/-- C4 witness: on concrete cross-chain runs, the signing envelope the
EVM hook persists authorizes a transfer to the bridge's deposit address
`0xDEPOSIT` (not the caller's `0xRCPT`), and the Solana hook's
transaction moves the tokens to the deposit address's token account
(not `FINAL`'s). -/
theorem c4_witness :
    ((verifyEvm c4eCtx EvmHookState.initial c4eParams).2.1.paymentState.x402Header =
      some { x402Version := 1, scheme := "exact", network := "base"
             payload := { signature := "0xSIG"
                          authorization := { fromAddr := "0xUSER", toAddr := "0xDEPOSIT"
                                             value := 100000, validAfter := 0
                                             validBefore := 4600, nonce := "0xN" } } })
    ∧ ((verifySol c4sCtx SolHookState.initial c4sParams).2.1.paymentState.x402Header =
      some { x402Version := 1, scheme := "exact", network := "solana"
             payload :=
               { transaction :=
                   { feePayer := "2wKupLR9q6wXYppw8Gr2NvWxKBUqm4PPJKkQfoxHDBg4"
                     recentBlockhash := "BH"
                     instructions :=
                       [SolInstr.computeUnitLimit 40000, SolInstr.computeUnitPrice 1,
                        SolInstr.createAta "SOLUSER" "SUSDC@DEPOSIT" "DEPOSIT" "SUSDC",
                        SolInstr.transferChecked "SUSDC@SOLUSER" "SUSDC" "SUSDC@DEPOSIT"
                          "SOLUSER" 1500000 6] }
                 destinationNetwork := some "base"
                 destinationAddress := some "DEPOSIT" } }) := by
  constructor
  · exact (c4_cross_chain_uses_deposit_address.1 c4eCtx EvmHookState.initial c4eParams
      "k" "base" "optimism" "0xSIG" { depositAddress := "0xDEPOSIT", orderId := "order-1" }
      respVerifyOk rfl (by decide) (by decide) (by decide) (by decide) (by decide) (by decide)
      rfl (by decide) rfl rfl (by decide)).2.2.2
  · exact (c4_cross_chain_uses_deposit_address.2 c4sCtx SolHookState.initial c4sParams
      "k" "solana" "base" "PayAI" "2wKupLR9q6wXYppw8Gr2NvWxKBUqm4PPJKkQfoxHDBg4"
      { depositAddress := "DEPOSIT", orderId := "order-2" } respVerifyOk
      rfl (by decide) (by decide) (by decide) (by decide) (by decide) (by decide)
      rfl (by decide) rfl (by decide) (by decide) rfl (by decide)).2

/-- C5: for a same-network EVM intent on Base (the one source network
with an expected chain id, 8453), a connected wallet sitting on any
other chain makes the signing step fail with the chain-mismatch error
before any typed-data signature request — indeed before any event at
all — is issued. -/
theorem c5_chain_mismatch_blocks_signing (ctx : EvmCtx) (params : PaymentParams)
    (hconn : ctx.isConnected = true) (haddr : ctx.address ≠ none)
    (hsrc : params.sourceNetwork = some "base")
    (_hsame : params.destinationNetwork = some "base")
    (hmismatch : ctx.currentChainId ≠ 8453) :
    (signPaymentEvm ctx params).1 =
      .error (chainMismatchMsg ctx.currentChainId 8453 "base")
    ∧ (signPaymentEvm ctx params).2 = [] := by
  have hm : preflightMismatch ctx params =
      some (chainMismatchMsg ctx.currentChainId 8453 "base") := by
    rw [preflightMismatch, hsrc]
    simp [jsTruthy, hmismatch]
  rw [signPaymentEvm, if_neg (by simp [hconn, haddr]), hm]
  exact ⟨rfl, rfl⟩

/-- C5 witness: a wallet on chain 1 attempting a Base payment fails
with the chain-mismatch message and no signature prompt. -/
theorem c5_witness :
    (signPaymentEvm c5Ctx c5Params).1 = .error (chainMismatchMsg 1 8453 "base")
    ∧ (signPaymentEvm c5Ctx c5Params).2 = [] :=
  c5_chain_mismatch_blocks_signing c5Ctx c5Params rfl (by decide) rfl rfl (by decide)

/-- C6: every Solana transaction the hook compiles has the
compute-unit-limit instruction at position 0, the compute-unit-price
instruction at position 1, then an associated-token-account creation
instruction exactly when the destination token account does not exist,
then the checked transfer last; its fee payer is the published
fee-payer key of the facilitator top-ranked by the ranking endpoint,
and an unmapped facilitator name is an error, not a silent fallback. -/
theorem c6_solana_transaction_shape (ctx : SolCtx) (params : PaymentParams)
    (hconn : ctx.isConnected = true) (haddr : ctx.address ≠ none)
    (hsrcAta : ctx.sourceAtaExists = true)
    (name : String) (hrank : getRankedFacilitators ctx.facilResp = .ok name) :
    (∀ key, getSolanaFeePayer name = .ok key → ctx.signResp = .ok () →
      ((signSolanaPayment ctx params).1.map fun h => h.payload.transaction.feePayer) = .ok key
      ∧ ((signSolanaPayment ctx params).1.map fun h => h.payload.transaction.instructions) =
          .ok
            (let address := ctx.address.getD ""
             let useToken := params.token.getD
               (if (match params.sourceNetwork with
                    | some s => containsSeq "devnet".data s.data
                    | none => false) then ctx.usdcSolanaDevnet else ctx.usdcSolana)
             let programId :=
               if ctx.mintIsToken2022 then TOKEN_2022_PROGRAM_ID else TOKEN_PROGRAM_ID
             let sourceAta := ctx.ataOf useToken.address address programId
             let destinationAta := ctx.ataOf useToken.address params.toAddr programId
             [SolInstr.computeUnitLimit 40000, SolInstr.computeUnitPrice 1] ++
             (if ctx.destAtaExists then []
              else [SolInstr.createAta address destinationAta params.toAddr useToken.address]) ++
             [SolInstr.transferChecked sourceAta useToken.address destinationAta address
               (validateAmount params.amount useToken.decimals) ctx.mintDecimals]))
    ∧ (∀ e, getSolanaFeePayer name = .error e →
        (signSolanaPayment ctx params).1 = .error ("Solana payment failed: " ++ e))
    ∧ (SOLANA_FEE_PAYERS.lookup name = none →
        (signSolanaPayment ctx params).1 = .error
          ("Solana payment failed: Solana fee payer not configured for facilitator: " ++ name)) := by
  refine ⟨?_, ?_, ?_⟩
  · intro key hkey hsign
    constructor
    · simp [signSolanaPayment, hconn, haddr, hsrcAta, hrank, hkey, hsign, Except.map]
    · simp only [signSolanaPayment, Except.map]
      simp [hconn, haddr, hsrcAta, hrank, hkey, hsign]
  · intro e hkey
    simp [signSolanaPayment, hconn, haddr, hsrcAta, hrank, hkey]
  · intro hlook
    have hkey : getSolanaFeePayer name =
        .error ("Solana fee payer not configured for facilitator: " ++ name) := by
      simp [getSolanaFeePayer, hlook, jsTruthy]
    have hfold : (signSolanaPayment ctx params).1 =
        .error ("Solana payment failed: " ++
          ("Solana fee payer not configured for facilitator: " ++ name)) := by
      simp [signSolanaPayment, hconn, haddr, hsrcAta, hrank, hkey]
    rw [hfold]
    rfl

/-- C6 witness: a concrete signing run whose destination account is
missing yields exactly limit, price, ATA creation, transfer — with
PayAI's published fee payer. -/
theorem c6_witness :
    ((signSolanaPayment c6Ctx c6Params).1.map fun h => h.payload.transaction.feePayer) =
      .ok "2wKupLR9q6wXYppw8Gr2NvWxKBUqm4PPJKkQfoxHDBg4"
    ∧ ((signSolanaPayment c6Ctx c6Params).1.map fun h => h.payload.transaction.instructions) =
      .ok [SolInstr.computeUnitLimit 40000, SolInstr.computeUnitPrice 1,
           SolInstr.createAta "SOLUSER" "SUSDC@DEST" "DEST" "SUSDC",
           SolInstr.transferChecked "SUSDC@SOLUSER" "SUSDC" "SUSDC@DEST" "SOLUSER" 1500000 6] := by
  have h := (c6_solana_transaction_shape c6Ctx c6Params rfl (by decide) rfl "PayAI"
    (by decide)).1 "2wKupLR9q6wXYppw8Gr2NvWxKBUqm4PPJKkQfoxHDBg4" (by decide) rfl
  exact ⟨h.1, h.2⟩

/-- C7: the fee estimate computed for a same-chain payment of amount A
at merchant-tier fee f per cent is exactly A*f/100; for a cross-chain
payment it is the cross-chain percentage of A floored at the
destination family's configured minimum, max(A*p/100, m); the default
minimums are 0.01 for both families, and amount 0.001 at the default
1 per cent cross-chain fee reports 0.01, not 0.00001. -/
theorem c7_fee_computation (fc : FeeConfig) (dest : String) (A : ℚ) :
    calcProcessingFee fc false dest A = A * fc.samechain.currentFee / 100
    ∧ calcProcessingFee fc true dest A =
        max (A * fc.crosschain.feePercent / 100)
          (if destIsSolana dest then fc.crosschain.minimumFeeSolana
           else fc.crosschain.minimumFeeBase)
    ∧ DEFAULT_FEE_CONFIG.crosschain.minimumFeeBase = 1/100
    ∧ DEFAULT_FEE_CONFIG.crosschain.minimumFeeSolana = 1/100
    ∧ DEFAULT_FEE_CONFIG.crosschain.feePercent = 1
    ∧ calcProcessingFee DEFAULT_FEE_CONFIG true "optimism" (1/1000) = 1/100 := by
  refine ⟨rfl, rfl, rfl, rfl, rfl, ?_⟩
  have hds : destIsSolana "optimism" = false := by decide
  simp only [calcProcessingFee, hds, if_true, Bool.false_eq_true, if_false, DEFAULT_FEE_CONFIG]
  rw [max_eq_right (by norm_num)]

/-- C9 counterexample: a failing response carrying only `data.reason`
and `error.hint` is reported as `"R H"` — the `data.reason` fallback
with the hint appended — while the claim's rule would give the generic
default message. -/
theorem c9_counterexample :
    verifyPaymentResp c9Resp = .error "R H"
    ∧ claimedFailureMessage c9Resp "Payment verification failed" = "Payment verification failed"
    ∧ ("R H" : String) ≠ "Payment verification failed" := by
  refine ⟨by decide, rfl, by decide⟩

/-- C9 amended: a response lacking `status:"success"` or the expected
boolean flag is treated as failure regardless of the HTTP status, and
the failure message is the first present-and-nonempty of
`error.message`, top-level `message`, `data.reason`, else the generic
default, with a present-and-nonempty `error.hint` appended to whichever
was chosen. -/
theorem c9_failure_response_handling (r : ApiResp) :
    (r.status ≠ some "success" ∨ r.dataValid ≠ some true →
      verifyPaymentResp r = .error (amendedFailureMessage r "Payment verification failed"))
    ∧ (r.status ≠ some "success" ∨ r.dataSettled ≠ some true →
      settlePaymentResp r = .error (amendedFailureMessage r "Payment settlement failed")) := by
  constructor
  · intro h
    rw [verifyPaymentResp, if_pos (by tauto), apiErrorMessage_eq_amended]
  · intro h
    rw [settlePaymentResp, if_pos (by tauto), apiErrorMessage_eq_amended]

/-- C9 witness: the amended rule evaluated on a concrete failing
verify response with message and hint. -/
theorem c9_failure_response_handling_witness :
    verifyPaymentResp
      { ok := true, status := some "fail", errorMessage := some "bad sig"
        errorHint := some "re-sign", message := none, dataReason := none
        dataValid := some false, dataSettled := none, dataPaymentId := none
        dataTxHash := none, dataDepositAddress := none, dataOrderId := none } =
      .error "bad sig re-sign" := by
  have := (c9_failure_response_handling
    { ok := true, status := some "fail", errorMessage := some "bad sig"
      errorHint := some "re-sign", message := none, dataReason := none
      dataValid := some false, dataSettled := none, dataPaymentId := none
      dataTxHash := none, dataDepositAddress := none, dataOrderId := none }).1
    (by decide)
  simpa using this

end OnchainConnect
